import Mathlib

/-!
Verification development for the GoldSim-SWMM bridge (GSswmm).

Shallow embedding of `src/SwmmGoldSimBridge.cpp` and `src/MappingLoader.cpp`.
C++ doubles are modelled as exact rationals (`Rat`); none of the verified
properties depend on floating-point rounding.  The hydraulic engine
(EPA SWMM, external to the bridge) is modelled as a deterministic oracle
plus an explicit engine state, following the executable engine contract in
`src/tests/swmm_mock.cpp`: `open`/`start` set their phase flag when the
configured return code is 0, `end`/`close` always clear it, `step`
increments a call counter and reports the configured code, and
`setValue` calls are observable as a log.
-/

namespace GSswmm

/-! ### String containment infrastructure (for error-message claims) -/

/-- Boolean test: does `cs` start with `pat` (character lists)? -/
def charsPrefixB : List Char → List Char → Bool
  | [], _ => true
  | _ :: _, [] => false
  | p :: ps, c :: cs => p == c && charsPrefixB ps cs

/-- Boolean test: does the second list contain `pat` as a contiguous run? -/
def charsContainB (pat : List Char) : List Char → Bool
  | [] => pat.isEmpty
  | c :: cs => charsPrefixB pat (c :: cs) || charsContainB pat cs

/-- Boolean substring test on strings. -/
def strContainsB (s pat : String) : Bool := charsContainB pat.data s.data

/-- `pat` occurs contiguously inside `s`. -/
def ContainsStr (s pat : String) : Prop :=
  ∃ l r, s.data = l ++ pat.data ++ r

theorem charsPrefixB_correct (pat cs : List Char) (h : charsPrefixB pat cs = true) :
    ∃ r, cs = pat ++ r := by
  induction pat generalizing cs with
  | nil => exact ⟨cs, rfl⟩
  | cons p ps ih =>
    cases cs with
    | nil => simp [charsPrefixB] at h
    | cons c cs' =>
      simp only [charsPrefixB, Bool.and_eq_true, beq_iff_eq] at h
      obtain ⟨r, hr⟩ := ih cs' h.2
      exact ⟨r, by simp [h.1, hr]⟩

theorem charsContainB_correct (pat cs : List Char) (h : charsContainB pat cs = true) :
    ∃ l r, cs = l ++ pat ++ r := by
  induction cs with
  | nil =>
    simp only [charsContainB, List.isEmpty_iff] at h
    exact ⟨[], [], by simp [h]⟩
  | cons c cs' ih =>
    simp only [charsContainB, Bool.or_eq_true] at h
    cases h with
    | inl h =>
      obtain ⟨r, hr⟩ := charsPrefixB_correct pat (c :: cs') h
      exact ⟨[], r, by simp [hr]⟩
    | inr h =>
      obtain ⟨l, r, hr⟩ := ih h
      exact ⟨c :: l, r, by simp [hr]⟩

theorem containsStr_of_b (s pat : String) (h : strContainsB s pat = true) :
    ContainsStr s pat :=
  charsContainB_correct pat.data s.data h

theorem string_data_append (a b : String) : (a ++ b).data = a.data ++ b.data := rfl

theorem containsStr_append_left (s t pat : String) (h : ContainsStr s pat) :
    ContainsStr (s ++ t) pat := by
  obtain ⟨l, r, hr⟩ := h
  exact ⟨l, r ++ t.data, by simp [string_data_append, hr]⟩

theorem containsStr_append_right (s t pat : String) (h : ContainsStr t pat) :
    ContainsStr (s ++ t) pat := by
  obtain ⟨l, r, hr⟩ := h
  exact ⟨s.data ++ l, r, by simp [string_data_append, hr]⟩

theorem containsStr_length_le (s pat : String) (h : ContainsStr s pat) :
    pat.data.length ≤ s.data.length := by
  obtain ⟨l, r, hr⟩ := h
  simp [hr]
  omega

/-- The message contains the three structural markers of a bridge diagnostic. -/
def ThreePart (s : String) : Prop :=
  ContainsStr s ("Error:") ∧ ContainsStr s ("Context:") ∧ ContainsStr s ("Suggestion:")

/-- Single-quote character as a string (C++ messages quote identifiers with it). -/
def sq : String := (Char.ofNat 39).toString

/-! ### Engine constants

Object-type constants are from `src/tests/swmm_mock.h` (mirroring the engine
header).  Property-channel constants come from the engine header
`include/swmm5.h`, which is external to the bridge; the bridge only passes
them through to `swmm_getValue`/`swmm_setValue`, so only their identity as
named channels matters here, never their numeric values. -/

def swmm_GAGE : Int := 0
def swmm_SUBCATCH : Int := 1
def swmm_NODE : Int := 2
def swmm_LINK : Int := 3

def swmm_GAGE_RAINFALL : Int := 100
def swmm_SUBCATCH_RUNOFF : Int := 228
def swmm_NODE_VOLUME : Int := 305
def swmm_NODE_LATFLOW : Int := 306
def swmm_NODE_INFLOW : Int := 307
def swmm_LINK_FLOW : Int := 405
def swmm_LINK_SETTING : Int := 409
def swmm_ROUTESTEP : Int := 3

/-! ### Mapping data model (`src/include/MappingLoader.h`) -/

/-- `MappingLoader::InputMapping`. -/
structure InputMapping where
  interface_index : Int
  name : String
  object_type : String
  property : String
  swmm_index : Int
deriving DecidableEq, Repr

/-- `MappingLoader::OutputMapping`. -/
structure OutputMapping where
  interface_index : Int
  name : String
  object_type : String
  property : String
  swmm_index : Int
deriving DecidableEq, Repr

/-- The in-memory collections a loaded `MappingLoader` holds. -/
structure Mapping where
  inputs : List InputMapping
  outputs : List OutputMapping
deriving DecidableEq, Repr

/-- Result of the lexical JSON scan of the mapping file
(`findValue`/`parseInputArray`/`parseOutputArray` in `src/MappingLoader.cpp`):
the extracted version and hash strings, the declared counts, and the record
lists.  The textual scanning itself is external per the spec; the semantic
checks `MappingLoader::LoadFromFile` performs on this data are modelled in
`loadFromFile` below. -/
structure ParsedMappingFile where
  version : String
  inp_file_hash : String
  input_count : Int
  output_count : Int
  inputs : List InputMapping
  outputs : List OutputMapping
deriving DecidableEq, Repr

/-- `MappingLoader.cpp` lines 327-332. -/
def versionMsg (v : String) (path : String) : String :=
  ("Error: Unsupported mapping file version\nContext: Version ") ++ sq ++ v ++ sq ++
  (" in file ") ++ sq ++ path ++ sq ++
  ("\nSuggestion: Regenerate the mapping file using the current version of the parser")

/-- `MappingLoader.cpp` lines 367-371. -/
def inputCountMsg (expected : Int) (found : Nat) : String :=
  ("Error: Input count mismatch\nContext: Expected ") ++ toString expected ++
  (" inputs, found ") ++ toString found ++
  ("\nSuggestion: Regenerate the mapping file to ensure consistency")

/-- `MappingLoader.cpp` lines 386-390. -/
def outputCountMsg (expected : Int) (found : Nat) : String :=
  ("Error: Output count mismatch\nContext: Expected ") ++ toString expected ++
  (" outputs, found ") ++ toString found ++
  ("\nSuggestion: Regenerate the mapping file to ensure consistency")

/-- Semantic phase of `MappingLoader::LoadFromFile` (`src/MappingLoader.cpp`
lines 321-393), applied to the already-scanned file content: version check,
then the input-count check (after the inputs array is parsed), then the
output-count check. -/
def loadFromFile (path : String) (p : ParsedMappingFile) : Except String Mapping :=
  if p.version ≠ ("1.0") then .error (versionMsg p.version path)
  else if (p.inputs.length : Int) ≠ p.input_count then
    .error (inputCountMsg p.input_count p.inputs.length)
  else if (p.outputs.length : Int) ≠ p.output_count then
    .error (outputCountMsg p.output_count p.outputs.length)
  else .ok ⟨p.inputs, p.outputs⟩

/-! ### Engine oracle and state -/

/-- Result of `GetFileAttributesA` on the bridge's input file, as consumed by
`FileValidator::Exists`. -/
inductive FileStatus
  | present
  | missing
  | directory
deriving DecidableEq, Repr

/-- Deterministic model of the engine's behaviour and of the two external
reads the bridge performs (input-file attributes and the mapping-file scan).
The mock engine (`src/tests/swmm_mock.cpp`) is the repository's executable
statement of this contract. -/
structure EngineOracle where
  openCode : Int
  startCode : Int
  stepCode : Nat → Int
  endCode : Int
  closeCode : Int
  getIndex : Int → String → Int
  getCount : Int → Int
  getValue : Int → Int → Rat
  errorMsg : String
  fileStatus : FileStatus
  mappingParse : Except String ParsedMappingFile

/-- Mutable engine state observed through the engine API. -/
structure EngineState where
  opened : Bool
  started : Bool
  stepCount : Nat
  setLog : List (Int × Int × Rat)
deriving DecidableEq, Repr

def EngineState.init : EngineState := ⟨false, false, 0, []⟩

def engineOpen (o : EngineOracle) (e : EngineState) : EngineState × Int :=
  (if o.openCode = 0 then { e with opened := true } else e, o.openCode)

def engineStart (o : EngineOracle) (e : EngineState) : EngineState × Int :=
  (if o.startCode = 0 then { e with started := true } else e, o.startCode)

def engineStep (o : EngineOracle) (e : EngineState) : EngineState × Int :=
  ({ e with stepCount := e.stepCount + 1 }, o.stepCode (e.stepCount + 1))

def engineEnd (o : EngineOracle) (e : EngineState) : EngineState × Int :=
  ({ e with started := false }, o.endCode)

def engineClose (o : EngineOracle) (e : EngineState) : EngineState × Int :=
  ({ e with opened := false }, o.closeCode)

def engineSetValue (e : EngineState) (prop idx : Int) (v : Rat) : EngineState :=
  { e with setLog := e.setLog ++ [(prop, idx, v)] }

/-! ### SwmmSimulation state (`src/SwmmGoldSimBridge.cpp` lines 170-213) -/

structure SimState where
  is_running : Bool
  subcatchment_index : Int
  last_swmm_time : Rat
  accumulated_rainfall : Rat
  error_buffer : String
  input_indices : List Int
  output_indices : List Int
  engine : EngineState
deriving DecidableEq, Repr

/-- The `SwmmSimulation` constructor (lines 188-198). -/
def SimState.init : SimState :=
  ⟨false, 0, -1, 0, (""), [], [], EngineState.init⟩

/-- The exported `SetSubcatchmentIndex` test hook (lines 926-928, 737-739, 212). -/
def SetSubcatchmentIndex (st : SimState) (index : Int) : SimState :=
  { st with subcatchment_index := index }

/-- The fixed input-file path (line 193). -/
def input_file : String := ("model.inp")

/-! ### FileValidator (lines 135-162) -/

def fileEmptyMsg : String :=
  ("Error: Input file path is not provided\nContext: File path is empty\n") ++
  ("Suggestion: Ensure the input file path is specified in the model configuration")

def fileMissingMsg (path : String) : String :=
  ("Error: Input file does not exist\nContext: File path ") ++ sq ++ path ++ sq ++
  ("\nSuggestion: Verify the file path is correct and the file exists")

def fileDirectoryMsg (path : String) : String :=
  ("Error: Input file path is a directory\nContext: Path ") ++ sq ++ path ++ sq ++
  ("\nSuggestion: Provide a file path, not a directory path")

def fileValidatorOk (path : String) (status : FileStatus) : Except String Unit :=
  if path = ("") then .error fileEmptyMsg
  else match status with
    | .missing => .error (fileMissingMsg path)
    | .directory => .error (fileDirectoryMsg path)
    | .present => .ok ()

/-! ### Error messages produced by SwmmSimulation -/

/-- Lines 577-579. -/
def unknownInputTypeMsg (r : InputMapping) : String :=
  ("Error: Unknown input object type\nContext: Type ") ++ sq ++ r.object_type ++ sq ++
  (" for element ") ++ sq ++ r.name ++ sq ++
  ("\nSuggestion: Supported types are GAGE, PUMP, ORIFICE, WEIR, NODE")

/-- Lines 587-590 and 626-629 (same text for inputs and outputs). -/
def elementNotFoundMsg (objectType elementName : String) : String :=
  ("Error: SWMM element not found\nContext: ") ++ objectType ++ (" ") ++ sq ++
  elementName ++ sq ++ ("\nSuggestion: Verify that ") ++ objectType ++ (" ") ++ sq ++
  elementName ++ sq ++ (" exists in the SWMM .inp file")

/-- Lines 616-618. -/
def unknownOutputTypeMsg (r : OutputMapping) : String :=
  ("Error: Unknown output object type\nContext: Type ") ++ sq ++ r.object_type ++ sq ++
  (" for element ") ++ sq ++ r.name ++ sq ++
  ("\nSuggestion: Supported types are STORAGE, OUTFALL, ORIFICE, WEIR, SUBCATCH")

/-- Lines 379-387. -/
def unknownInputPropertyMsg (r : InputMapping) : String :=
  ("Error: Unknown input property combination\nContext: ") ++ r.object_type ++ (".") ++
  r.property ++ (" for element ") ++ sq ++ r.name ++ sq ++
  ("\nSuggestion: Valid combinations are:\n  - GAGE.RAINFALL\n  - PUMP.SETTING\n") ++
  ("  - ORIFICE.SETTING\n  - WEIR.SETTING\n  - NODE.LATFLOW")

/-- Lines 476-483. -/
def unknownOutputPropertyMsg (r : OutputMapping) : String :=
  ("Error: Unknown output property\nContext: ") ++ r.object_type ++ (".") ++
  r.property ++ (" for element ") ++ sq ++ r.name ++ sq ++
  ("\nSuggestion: Valid combinations are:\n  - STORAGE.VOLUME\n  - OUTFALL.FLOW\n") ++
  ("  - ORIFICE.FLOW\n  - WEIR.FLOW\n  - SUBCATCH.RUNOFF")

/-- Lines 394-396. -/
def invalidInputHandleMsg (r : InputMapping) : String :=
  ("Error: Invalid element handle\nContext: Input element ") ++ sq ++ r.name ++ sq ++
  (" (type: ") ++ r.object_type ++ (")") ++
  ("\nSuggestion: Element may not have been properly resolved during initialization")

/-- Lines 456-458. -/
def invalidOutputHandleMsg (r : OutputMapping) : String :=
  ("Error: Invalid element handle\nContext: Output element ") ++ sq ++ r.name ++ sq ++
  (" (type: ") ++ r.object_type ++ (")") ++
  ("\nSuggestion: Element may not have been properly resolved during initialization")

/-- Lines 294-299 (`sprintf_s` into the error buffer). -/
def subcatchRangeMsg (index count : Int) : String :=
  ("Error: Subcatchment index out of range\nContext: Index ") ++ toString index ++
  (" (valid range: 0-") ++ toString (count - 1) ++
  (")\nSuggestion: Verify the subcatchment index is within the valid range")

/-- Line 227. -/
def cleanupFailedMsg : String := ("Failed to cleanup existing simulation")

/-- Line 334. -/
def notRunningMsg : String := ("SWMM not running")

/-! ### SwmmSimulation::Cleanup (lines 506-530) -/

/-- If not running, trivially succeed.  Otherwise call `swmm_end` then
`swmm_close`, clear the running flag, and report failure if either engine
call returned a nonzero code. -/
def Cleanup (o : EngineOracle) (st : SimState) : SimState × Bool :=
  if st.is_running = false then (st, true)
  else
    let r1 := engineEnd o st.engine
    let r2 := engineClose o r1.1
    let st' := { st with engine := r2.1, is_running := false }
    if r1.2 ≠ 0 then (st', false)
    else if r2.2 ≠ 0 then (st', false)
    else (st', true)

/-! ### SwmmSimulation::ValidateMapping (lines 538-641) -/

/-- Input-record type-tag resolution (lines 560-582). -/
def inputObjType (r : InputMapping) : Except String Int :=
  if r.object_type = ("GAGE") then .ok swmm_GAGE
  else if r.object_type = ("PUMP") ∨ r.object_type = ("ORIFICE") ∨
      r.object_type = ("WEIR") then .ok swmm_LINK
  else if r.object_type = ("NODE") then .ok swmm_NODE
  else .error (unknownInputTypeMsg r)

/-- Output-record type-tag resolution (lines 607-621). -/
def outputObjType (r : OutputMapping) : Except String Int :=
  if r.object_type = ("STORAGE") ∨ r.object_type = ("OUTFALL") then .ok swmm_NODE
  else if r.object_type = ("ORIFICE") ∨ r.object_type = ("WEIR") then .ok swmm_LINK
  else if r.object_type = ("SUBCATCH") then .ok swmm_SUBCATCH
  else .error (unknownOutputTypeMsg r)

/-- Input loop of `ValidateMapping` (lines 549-598): resolves each record to
an engine index, pushing `-1` for SYSTEM records; returns the indices pushed
so far together with the first failure, if any (fail-fast). -/
def validateInputs (o : EngineOracle) : List InputMapping → List Int × Except String Unit
  | [] => ([], .ok ())
  | r :: rest =>
    if r.object_type = ("SYSTEM") then
      let t := validateInputs o rest
      (-1 :: t.1, t.2)
    else
      match inputObjType r with
      | .error e => ([], .error e)
      | .ok objType =>
        let idx := o.getIndex objType r.name
        if idx < 0 then ([], .error (elementNotFoundMsg r.object_type r.name))
        else
          let t := validateInputs o rest
          (idx :: t.1, t.2)

/-- Output loop of `ValidateMapping` (lines 600-637). -/
def validateOutputs (o : EngineOracle) : List OutputMapping → List Int × Except String Unit
  | [] => ([], .ok ())
  | r :: rest =>
    match outputObjType r with
    | .error e => ([], .error e)
    | .ok objType =>
      let idx := o.getIndex objType r.name
      if idx < 0 then ([], .error (elementNotFoundMsg r.object_type r.name))
      else
        let t := validateOutputs o rest
        (idx :: t.1, t.2)

/-- `ValidateMapping`: clears the stored indices, then resolves inputs and
outputs fail-fast; the indices resolved before a failure stay stored. -/
def ValidateMapping (o : EngineOracle) (m : Mapping) (st : SimState) :
    SimState × Except String Unit :=
  let ri := validateInputs o m.inputs
  match ri.2 with
  | .error e => ({ st with input_indices := ri.1, output_indices := [] }, .error e)
  | .ok _ =>
    let ro := validateOutputs o m.outputs
    ({ st with input_indices := ri.1, output_indices := ro.1 }, ro.2)

/-! ### SwmmSimulation::Initialize (lines 220-322) -/

/-- Body of `Initialize` from the file-validation step on, taking the state
left by the cleanup-if-running guard: validate the input file; `swmm_open`;
`ValidateMapping` (closing the engine on failure); subcatchment-index range
check (closing on failure); `swmm_start` (closing on failure); on success set
the running flag and reset the timing state.  Engine failures surface the
engine's own error text (`GetSwmmError`, lines 669-673), which is also
stashed in the error buffer. -/
def initializeCore (o : EngineOracle) (m : Mapping) (st0 : SimState) :
    SimState × Except String Unit :=
  match fileValidatorOk input_file o.fileStatus with
  | .error e => (st0, .error e)
  | .ok _ =>
    let op := engineOpen o st0.engine
    let st1 := { st0 with engine := op.1 }
    if op.2 ≠ 0 then
      ({ st1 with error_buffer := o.errorMsg }, .error o.errorMsg)
    else
      let v := ValidateMapping o m st1
      match v.2 with
      | .error e =>
        let cl := engineClose o v.1.engine
        ({ v.1 with engine := cl.1 }, .error e)
      | .ok _ =>
        let st2 := v.1
        let subcatch_count := o.getCount swmm_SUBCATCH
        if st2.subcatchment_index < 0 ∨ subcatch_count ≤ st2.subcatchment_index then
          let cl := engineClose o st2.engine
          ({ st2 with engine := cl.1 },
           .error (subcatchRangeMsg st2.subcatchment_index subcatch_count))
        else
          let sr := engineStart o st2.engine
          let st3 := { st2 with engine := sr.1 }
          if sr.2 ≠ 0 then
            let cl := engineClose o st3.engine
            ({ st3 with engine := cl.1, error_buffer := o.errorMsg }, .error o.errorMsg)
          else
            ({ st3 with is_running := true, last_swmm_time := -1,
                        accumulated_rainfall := 0 }, .ok ())

/-- `SwmmSimulation::Initialize` (lines 220-322): cleanup if already
running, then run the core sequence. -/
def Initialize (o : EngineOracle) (m : Mapping) (st : SimState) :
    SimState × Except String Unit :=
  let c := if st.is_running then Cleanup o st else (st, true)
  if c.2 = false then (c.1, .error cleanupFailedMsg)
  else initializeCore o m c.1

/-! ### SwmmSimulation::Calculate (lines 329-501) -/

/-- Pointwise array update (`outargs[i] = v`). -/
def updArr (f : Int → Rat) (i : Int) (v : Rat) : Int → Rat :=
  fun j => if j = i then v else f j

/-- Input `(object_type, property)` to channel resolution (lines 360-390). -/
def inputProperty (r : InputMapping) : Except String Int :=
  if r.object_type = ("GAGE") ∧ r.property = ("RAINFALL") then .ok swmm_GAGE_RAINFALL
  else if (r.object_type = ("PUMP") ∨ r.object_type = ("ORIFICE") ∨
      r.object_type = ("WEIR")) ∧ r.property = ("SETTING") then .ok swmm_LINK_SETTING
  else if r.object_type = ("NODE") ∧ r.property = ("LATFLOW") then .ok swmm_NODE_LATFLOW
  else .error (unknownInputPropertyMsg r)

/-- Output `(object_type, property)` to channel resolution (lines 463-486). -/
def outputProperty (r : OutputMapping) : Except String Int :=
  if r.object_type = ("STORAGE") ∧ r.property = ("VOLUME") then .ok swmm_NODE_VOLUME
  else if r.object_type = ("OUTFALL") ∧ r.property = ("FLOW") then .ok swmm_NODE_INFLOW
  else if r.object_type = ("ORIFICE") ∧ r.property = ("FLOW") then .ok swmm_LINK_FLOW
  else if r.object_type = ("WEIR") ∧ r.property = ("FLOW") then .ok swmm_LINK_FLOW
  else if r.object_type = ("SUBCATCH") ∧ r.property = ("RUNOFF") then .ok swmm_SUBCATCH_RUNOFF
  else .error (unknownOutputPropertyMsg r)

/-- Input loop of `Calculate` (lines 345-413): for each non-SYSTEM record,
resolve its channel, check the stored handle, and apply the value read from
the inargs array just supplied, tracking GAGE values in the rainfall
accumulator.  The records walk in lockstep with the stored `input_indices_`
(same length after `ValidateMapping`; `headD (-1)` totalises the C++
out-of-bounds `operator[]`, which is undefined and unreachable). -/
def processInputs (o : EngineOracle) (inargs : Int → Rat) :
    List InputMapping → List Int → SimState → SimState × Except String Unit
  | [], _, st => (st, .ok ())
  | r :: rest, idxs, st =>
    if r.object_type = ("SYSTEM") then processInputs o inargs rest idxs.tail st
    else
      match inputProperty r with
      | .error e => (st, .error e)
      | .ok prop =>
        let swmmIdx := idxs.headD (-1)
        if swmmIdx < 0 ∧ r.object_type ≠ ("SYSTEM") then
          (st, .error (invalidInputHandleMsg r))
        else
          let value := inargs r.interface_index
          let st' := { st with
            engine := engineSetValue st.engine prop swmmIdx value,
            accumulated_rainfall :=
              if r.object_type = ("GAGE") then st.accumulated_rainfall + value
              else st.accumulated_rainfall }
          processInputs o inargs rest idxs.tail st'

/-- Output loop of `Calculate` (lines 449-498): handle check, channel
resolution, `swmm_getValue`, write into the outargs slot. -/
def processOutputs (o : EngineOracle) :
    List OutputMapping → List Int → (Int → Rat) → (Int → Rat) × Except String Unit
  | [], _, out => (out, .ok ())
  | r :: rest, idxs, out =>
    let swmmIdx := idxs.headD (-1)
    if swmmIdx < 0 then (out, .error (invalidOutputHandleMsg r))
    else
      match outputProperty r with
      | .error e => (out, .error e)
      | .ok prop =>
        let value := o.getValue prop swmmIdx
        processOutputs o rest idxs.tail (updArr out r.interface_index value)

/-- Zeroing loop run when the engine reports normal termination
(lines 437-440). -/
def zeroOutputs : List OutputMapping → (Int → Rat) → Int → Rat
  | [], out => out
  | r :: rest, out => zeroOutputs rest (updArr out r.interface_index 0)

/-- `ShouldStepSimulation` (lines 646-664): step on the first call after
Initialize (negative `last_swmm_time_`), otherwise step once at least 99% of
a routing step has elapsed since the last engine step. -/
def ShouldStepSimulation (last_swmm_time elapsed_days routing_step_days : Rat) : Bool :=
  if last_swmm_time < 0 then true
  else if routing_step_days * (99 / 100) ≤ elapsed_days - last_swmm_time then true
  else false

/-- `Calculate`: fail when not running; apply the just-supplied input values;
query the routing step; step the engine when due (engine error aborts,
positive code means the simulation ended: clean up, zero the mapped outputs
and succeed; otherwise record the step time); read the outputs. -/
def Calculate (o : EngineOracle) (m : Mapping) (inargs outargs : Int → Rat)
    (st : SimState) : SimState × (Int → Rat) × Except String Unit :=
  if st.is_running = false then (st, outargs, .error notRunningMsg)
  else
    let elapsed_days := inargs 0 / 86400
    let pi := processInputs o inargs m.inputs st.input_indices st
    match pi.2 with
    | .error e => (pi.1, outargs, .error e)
    | .ok _ =>
      let st1 := pi.1
      let routing_step_days := o.getValue swmm_ROUTESTEP 0 / 86400
      if ShouldStepSimulation st1.last_swmm_time elapsed_days routing_step_days then
        let sp := engineStep o st1.engine
        let st2 := { st1 with engine := sp.1 }
        if sp.2 < 0 then
          ({ st2 with error_buffer := o.errorMsg }, outargs, .error o.errorMsg)
        else if 0 < sp.2 then
          let c := Cleanup o st2
          (c.1, zeroOutputs m.outputs outargs, .ok ())
        else
          let st3 := { st2 with last_swmm_time := elapsed_days,
                                accumulated_rainfall := 0 }
          let po := processOutputs o m.outputs st3.output_indices outargs
          (st3, po.1, po.2)
      else
        let po := processOutputs o m.outputs st1.output_indices outargs
        (st1, po.1, po.2)

/-! ### BridgeHandler (lines 680-903) -/

/-- GoldSim status codes (lines 34-38). -/
inductive Status
  | Success
  | Failure
  | FailureWithMessage
deriving DecidableEq, Repr

/-- Bridge version constant (line 40). -/
def VERSION : Rat := 104 / 100

/-- The fixed mapping-file path (lines 750, 785, 852). -/
def mapping_file : String := ("SwmmGoldSimBridge.json")

/-- BridgeHandler state (lines 682-693): the simulation, the loaded mapping
(default-constructed empty before a load), and the call bookkeeping. -/
structure BridgeState where
  sim : SimState
  mapping : Mapping
  mapping_loaded : Bool
  calculate_call_count : Int
  last_logged_time : Rat
deriving DecidableEq, Repr

def BridgeState.init : BridgeState := ⟨SimState.init, ⟨[], []⟩, false, 0, -1⟩

/-- One handler call's observable outcome: the new bridge state, the status
written through `*status`, the outargs array, and the error text published
through `SetErrorMessage` (lines 895-902; the address-encoding into
`outargs[0]` is a memory-representation detail — what it communicates is the
message string). -/
structure CallResult where
  bridge : BridgeState
  status : Status
  outargs : Int → Rat
  message : Option String

/-- `MappingLoader::LoadFromFile` as invoked by the handlers: the external
read/scan phase (`o.mappingParse`) followed by the semantic checks. -/
def LoadMappingFile (o : EngineOracle) : Except String Mapping :=
  match o.mappingParse with
  | .error e => .error e
  | .ok p => loadFromFile mapping_file p

/-- `HandleInitialize` (lines 742-777): always reload the mapping file, then
run `SwmmSimulation::Initialize`; any failure is published with
`SetErrorMessage` and status `FailureWithMessage`. -/
def HandleInitialize (o : EngineOracle) (b : BridgeState) (outargs : Int → Rat) :
    CallResult :=
  match LoadMappingFile o with
  | .error e => ⟨b, .FailureWithMessage, outargs, some e⟩
  | .ok m =>
    let b1 := { b with mapping := m, mapping_loaded := true }
    let r := Initialize o m b1.sim
    match r.2 with
    | .ok _ => ⟨{ b1 with sim := r.1 }, .Success, outargs, none⟩
    | .error e => ⟨{ b1 with sim := r.1 }, .FailureWithMessage, outargs, some e⟩

/-- `HandleCalculate` (lines 779-842): bump the call counter, load the
mapping if absent, run `Calculate`; the specific failure `"SWMM not running"`
of a non-running simulation is reported as a plain `Failure` with no message,
every other failure as `FailureWithMessage`. -/
def HandleCalculate (o : EngineOracle) (b : BridgeState) (inargs outargs : Int → Rat) :
    CallResult :=
  let b0 := { b with calculate_call_count := b.calculate_call_count + 1 }
  match (if b0.mapping_loaded then .ok b0.mapping else LoadMappingFile o :
      Except String Mapping) with
  | .error e => ⟨b0, .FailureWithMessage, outargs, some e⟩
  | .ok m =>
    let b1 := { b0 with mapping := m, mapping_loaded := true }
    let r := Calculate o m inargs outargs b1.sim
    match r.2.2 with
    | .ok _ =>
      ⟨{ b1 with sim := r.1, last_logged_time := inargs 0 }, .Success, r.2.1, none⟩
    | .error e =>
      if r.1.is_running = false ∧ e = notRunningMsg then
        ⟨{ b1 with sim := r.1 }, .Failure, r.2.1, none⟩
      else
        ⟨{ b1 with sim := r.1 }, .FailureWithMessage, r.2.1, some e⟩

/-- `HandleReportVersion` (lines 844-847). -/
def HandleReportVersion (b : BridgeState) (outargs : Int → Rat) : CallResult :=
  ⟨b, .Success, updArr outargs 0 VERSION, none⟩

/-- `HandleReportArguments` (lines 849-873). -/
def HandleReportArguments (o : EngineOracle) (b : BridgeState) (outargs : Int → Rat) :
    CallResult :=
  match (if b.mapping_loaded then .ok b.mapping else LoadMappingFile o :
      Except String Mapping) with
  | .error e => ⟨b, .FailureWithMessage, outargs, some e⟩
  | .ok m =>
    let b1 := { b with mapping := m, mapping_loaded := true }
    ⟨b1, .Success,
     updArr (updArr outargs 0 (m.inputs.length : Rat)) 1 (m.outputs.length : Rat), none⟩

/-- `HandleCleanup` (lines 875-893): run `Cleanup`, report `Success` or
publish the simulation's error buffer with `FailureWithMessage`, and reset
the call counters either way. -/
def HandleCleanup (o : EngineOracle) (b : BridgeState) (outargs : Int → Rat) :
    CallResult :=
  let c := Cleanup o b.sim
  let b1 := { b with sim := c.1, calculate_call_count := 0, last_logged_time := -1 }
  if c.2 then ⟨b1, .Success, outargs, none⟩
  else ⟨b1, .FailureWithMessage, outargs, some c.1.error_buffer⟩

/-- `HandleMethod` (lines 698-732): dispatch on the method selector; an
unknown selector yields a plain `Failure`. -/
def HandleMethod (o : EngineOracle) (b : BridgeState) (methodID : Int)
    (inargs outargs : Int → Rat) : CallResult :=
  if methodID = 0 then HandleInitialize o b outargs
  else if methodID = 1 then HandleCalculate o b inargs outargs
  else if methodID = 2 then HandleReportVersion b outargs
  else if methodID = 3 then HandleReportArguments o b outargs
  else if methodID = 99 then HandleCleanup o b outargs
  else ⟨b, .Failure, outargs, none⟩

/-! ### Session-state predicates -/

/-- The `Closed` session state of the spec's state machine. -/
def Closed (st : SimState) : Prop :=
  st.is_running = false ∧ st.engine.opened = false ∧ st.engine.started = false

/-- The `Opened+Started` session state. -/
def OpenedStarted (st : SimState) : Prop :=
  st.is_running = true ∧ st.engine.opened = true ∧ st.engine.started = true

/-- A session is in one of the two legitimate states. -/
def StateOK (st : SimState) : Prop := Closed st ∨ OpenedStarted st

/-! ### Specification-side description of one exchange's engine writes

`currentInputLog` is written from the spec's words for the exchange step: it
lists, per non-informational input binding, the channel, handle, and the
value taken from the input array of the **current** call.  It is the
reference point against which the code's input loop is compared. -/

def currentInputLog (a : Int → Rat) :
    List InputMapping → List Int → Option (List (Int × Int × Rat))
  | [], _ => some []
  | r :: rest, idxs =>
    if r.object_type = ("SYSTEM") then currentInputLog a rest idxs.tail
    else
      match inputProperty r with
      | .error _ => none
      | .ok prop =>
        if idxs.headD (-1) < 0 ∧ r.object_type ≠ ("SYSTEM") then none
        else
          match currentInputLog a rest idxs.tail with
          | none => none
          | some l => some ((prop, idxs.headD (-1), a r.interface_index) :: l)

/-! ### Structural lemmas about the input loop -/

theorem processInputs_preserves (o : EngineOracle) (a : Int → Rat)
    (recs : List InputMapping) (idxs : List Int) (st : SimState) :
    (processInputs o a recs idxs st).1.is_running = st.is_running ∧
    (processInputs o a recs idxs st).1.engine.opened = st.engine.opened ∧
    (processInputs o a recs idxs st).1.engine.started = st.engine.started ∧
    (processInputs o a recs idxs st).1.engine.stepCount = st.engine.stepCount ∧
    (processInputs o a recs idxs st).1.last_swmm_time = st.last_swmm_time ∧
    (processInputs o a recs idxs st).1.input_indices = st.input_indices ∧
    (processInputs o a recs idxs st).1.output_indices = st.output_indices ∧
    (processInputs o a recs idxs st).1.subcatchment_index = st.subcatchment_index ∧
    (processInputs o a recs idxs st).1.error_buffer = st.error_buffer := by
  induction recs generalizing idxs st with
  | nil => simp [processInputs]
  | cons r rest ih =>
    by_cases hsys : r.object_type = ("SYSTEM")
    · simpa [processInputs, hsys] using ih idxs.tail st
    · rcases hp : inputProperty r with e | prop
      · simp [processInputs, hsys, hp]
      · by_cases hneg : idxs.head?.getD (-1) < 0
        · simp [processInputs, hsys, hp, List.headD_eq_head?_getD, hneg]
        · simpa [processInputs, hsys, hp, List.headD_eq_head?_getD, hneg,
            engineSetValue] using ih idxs.tail _

/-- The input loop of `Calculate` succeeds exactly on the records the
spec-side `currentInputLog` accepts, and then its engine writes are the
current call's values, appended to the existing log. -/
theorem processInputs_setLog (o : EngineOracle) (a : Int → Rat)
    (recs : List InputMapping) (idxs : List Int) (st : SimState)
    (log : List (Int × Int × Rat))
    (h : currentInputLog a recs idxs = some log) :
    (processInputs o a recs idxs st).2 = .ok () ∧
    (processInputs o a recs idxs st).1.engine.setLog = st.engine.setLog ++ log := by
  induction recs generalizing idxs st log with
  | nil =>
    simp only [currentInputLog, Option.some.injEq] at h
    simp [processInputs, ← h]
  | cons r rest ih =>
    by_cases hsys : r.object_type = ("SYSTEM")
    · simp only [currentInputLog, hsys, if_true] at h
      simpa [processInputs, hsys] using ih idxs.tail st log h
    · rcases hp : inputProperty r with e | prop
      · simp [currentInputLog, hsys, hp] at h
      · by_cases hneg : idxs.head?.getD (-1) < 0
        · simp [currentInputLog, hsys, hp, List.headD_eq_head?_getD, hneg] at h
        · rcases hrest : currentInputLog a rest idxs.tail with - | l'
          · simp [currentInputLog, hsys, hp, List.headD_eq_head?_getD, hneg,
              hrest] at h
          · simp only [currentInputLog, hsys, if_neg, hp,
              List.headD_eq_head?_getD, hneg, hrest, false_and, if_false,
              Option.some.injEq] at h
            have := ih idxs.tail
              { st with
                engine := engineSetValue st.engine prop (idxs.headD (-1))
                  (a r.interface_index),
                accumulated_rainfall :=
                  if r.object_type = ("GAGE") then
                    st.accumulated_rainfall + a r.interface_index
                  else st.accumulated_rainfall } l' hrest
            refine ⟨?_, ?_⟩
            · simpa [processInputs, hsys, hp, List.headD_eq_head?_getD,
                hneg] using this.1
            · rw [← h]
              simpa [processInputs, hsys, hp, List.headD_eq_head?_getD, hneg,
                engineSetValue, List.append_assoc] using this.2

/-! ### Structural lemmas about Cleanup and ValidateMapping -/

theorem cleanup_not_running (o : EngineOracle) (st : SimState) :
    (Cleanup o st).1.is_running = false ∨ Cleanup o st = (st, true) := by
  by_cases h : st.is_running = false
  · right; simp [Cleanup, h]
  · left
    unfold Cleanup
    rw [if_neg h]
    by_cases he : o.endCode = 0 <;> by_cases hc : o.closeCode = 0 <;>
      simp [engineEnd, engineClose, he, hc]

theorem cleanup_closed (o : EngineOracle) (st : SimState) (h : StateOK st) :
    Closed (Cleanup o st).1 := by
  by_cases hr : st.is_running = false
  · rcases h with hc | ho
    · simpa [Cleanup, hr] using hc
    · rw [ho.1] at hr; exact absurd hr (by simp)
  · unfold Cleanup
    rw [if_neg hr]
    by_cases he : o.endCode = 0 <;> by_cases hc : o.closeCode = 0 <;>
      simp [engineEnd, engineClose, he, hc, Closed]

theorem cleanup_engine_log (o : EngineOracle) (st : SimState) :
    (Cleanup o st).1.engine.stepCount = st.engine.stepCount ∧
    (Cleanup o st).1.engine.setLog = st.engine.setLog := by
  by_cases hr : st.is_running = false
  · simp [Cleanup, hr]
  · unfold Cleanup
    rw [if_neg hr]
    by_cases he : o.endCode = 0 <;> by_cases hc : o.closeCode = 0 <;>
      simp [engineEnd, engineClose, he, hc]

theorem cleanup_result (o : EngineOracle) (st : SimState) (h : st.is_running = true) :
    (Cleanup o st).2 = (o.endCode == 0 && o.closeCode == 0) := by
  unfold Cleanup
  rw [if_neg (by simp [h])]
  by_cases he : o.endCode = 0 <;> by_cases hc : o.closeCode = 0 <;>
    simp [engineEnd, engineClose, he, hc]

theorem validateMapping_frame (o : EngineOracle) (m : Mapping) (st : SimState) :
    (ValidateMapping o m st).1.engine = st.engine ∧
    (ValidateMapping o m st).1.is_running = st.is_running ∧
    (ValidateMapping o m st).1.subcatchment_index = st.subcatchment_index ∧
    (ValidateMapping o m st).1.last_swmm_time = st.last_swmm_time ∧
    (ValidateMapping o m st).1.error_buffer = st.error_buffer := by
  rcases hi : (validateInputs o m.inputs).2 with e | u
  · simp [ValidateMapping, hi]
  · simp [ValidateMapping, hi]

/-! ### Calculate-level lemmas -/

theorem calculate_not_running (o : EngineOracle) (m : Mapping)
    (a out : Int → Rat) (st : SimState) (h : st.is_running = false) :
    Calculate o m a out st = (st, out, .error notRunningMsg) := by
  simp [Calculate, h]

/-- Core of the exchange protocol as implemented: when the input loop
accepts, the values applied to the engine on an exchange are exactly the
`currentInputLog` of the inputs **just supplied**, appended to the engine's
log, and — whenever the step condition holds — the engine is then advanced
by exactly one step, whatever the step call returns. -/
theorem calculate_applies_current_inputs (o : EngineOracle) (m : Mapping)
    (a out : Int → Rat) (st : SimState) (log : List (Int × Int × Rat))
    (hrun : st.is_running = true)
    (hlog : currentInputLog a m.inputs st.input_indices = some log)
    (hstep : ShouldStepSimulation st.last_swmm_time (a 0 / 86400)
      (o.getValue swmm_ROUTESTEP 0 / 86400) = true) :
    (Calculate o m a out st).1.engine.setLog = st.engine.setLog ++ log ∧
    (Calculate o m a out st).1.engine.stepCount = st.engine.stepCount + 1 := by
  have hpi := processInputs_setLog o a m.inputs st.input_indices st log hlog
  have hpre := processInputs_preserves o a m.inputs st.input_indices st
  simp only [Calculate, hrun, Bool.true_eq_false, if_false, hpi.1]
  rw [hpre.2.2.2.2.1, hstep]
  simp only [engineStep, hpi.2, hpre.2.2.2.1]
  by_cases hc1 : o.stepCode (st.engine.stepCount + 1) < 0
  · simp [hc1]
  · by_cases hc2 : 0 < o.stepCode (st.engine.stepCount + 1)
    · have hcl := cleanup_engine_log o
        { (processInputs o a m.inputs st.input_indices st).1 with
          engine := { (processInputs o a m.inputs st.input_indices st).1.engine with
            stepCount := st.engine.stepCount + 1,
            setLog := st.engine.setLog ++ log } }
      simp only [hc1, hc2, if_true, if_false]
      simp_all
    · simp [hc1, hc2]

/-! ### Initialize-level lemmas -/

/-- From a closed state, the core of `Initialize` either succeeds into
`Opened+Started` or fails back into `Closed` — never anything in between. -/
theorem initializeCore_cases (o : EngineOracle) (m : Mapping) (st0 : SimState)
    (h0 : Closed st0) :
    (OpenedStarted (initializeCore o m st0).1 ∧ (initializeCore o m st0).2 = .ok ()) ∨
    (Closed (initializeCore o m st0).1 ∧ ∃ e, (initializeCore o m st0).2 = .error e) := by
  obtain ⟨hr1, hr2, hr3⟩ := h0
  rcases hf : fileValidatorOk input_file o.fileStatus with e | u
  · right
    simp [initializeCore, hf, Closed, hr1, hr2, hr3]
  · by_cases hop : o.openCode = 0
    case neg =>
      right
      simp [initializeCore, hf, engineOpen, hop, Closed, hr1, hr2, hr3]
    case pos =>
      rcases hv : (validateInputs o m.inputs).2 with e | u2
      · right
        simp [initializeCore, hf, ValidateMapping, hv, engineOpen, engineClose,
          hop, Closed, hr1, hr2, hr3]
      · rcases hw : (validateOutputs o m.outputs).2 with e | u3
        · right
          simp [initializeCore, hf, ValidateMapping, hv, hw, engineOpen,
            engineClose, hop, Closed, hr1, hr2, hr3]
        · by_cases hsub : st0.subcatchment_index < 0 ∨
              o.getCount swmm_SUBCATCH ≤ st0.subcatchment_index
          · right
            simp [initializeCore, hf, ValidateMapping, hv, hw, engineOpen,
              engineClose, hop, hsub, Closed, hr1, hr2, hr3]
          · by_cases hst : o.startCode = 0
            case neg =>
              right
              simp [initializeCore, hf, ValidateMapping, hv, hw, engineOpen,
                engineStart, engineClose, hop, hsub, hst, Closed, hr1, hr2, hr3]
            case pos =>
              left
              simp [initializeCore, hf, ValidateMapping, hv, hw, engineOpen,
                engineStart, hop, hsub, hst, OpenedStarted]

/-- The state left by the cleanup-if-running guard of `Initialize` is closed. -/
theorem initialize_guard_closed (o : EngineOracle) (st : SimState)
    (hok : StateOK st) :
    Closed ((if st.is_running = true then Cleanup o st else (st, true)).1) := by
  by_cases hr : st.is_running = true
  · simpa [hr] using cleanup_closed o st hok
  · rcases hok with hcl | hop
    · simpa [hr] using hcl
    · exact absurd hop.1 hr

/-- From a legitimate state, `Initialize` either succeeds into
`Opened+Started` or fails back into `Closed` — nothing in between. -/
theorem initialize_cases (o : EngineOracle) (m : Mapping) (st : SimState)
    (hok : StateOK st) :
    (OpenedStarted (Initialize o m st).1 ∧ (Initialize o m st).2 = .ok ()) ∨
    (Closed (Initialize o m st).1 ∧ ∃ e, (Initialize o m st).2 = .error e) := by
  have hcc := initialize_guard_closed o st hok
  by_cases hb : ((if st.is_running = true then Cleanup o st else (st, true)).2) = false
  · right
    simp only [Initialize]
    rw [if_pos hb]
    exact ⟨hcc, _, rfl⟩
  · simp only [Initialize]
    rw [if_neg hb]
    exact initializeCore_cases o m _ hcc

/-- A successful `Initialize` starts the session with the first-call marker
`last_swmm_time_ = -1` set, and does not step the engine. -/
theorem initialize_ok_state (o : EngineOracle) (m : Mapping) (st : SimState)
    (h : (Initialize o m st).2 = .ok ()) :
    (Initialize o m st).1.is_running = true ∧
    (Initialize o m st).1.last_swmm_time = -1 ∧
    (Initialize o m st).1.input_indices = (validateInputs o m.inputs).1 ∧
    (Initialize o m st).1.engine.stepCount = st.engine.stepCount ∧
    (Initialize o m st).1.engine.setLog = st.engine.setLog := by
  have hcl := cleanup_engine_log o st
  simp only [Initialize] at h ⊢
  by_cases hb : ((if st.is_running = true then Cleanup o st else (st, true)).2) = false
  · rw [if_pos hb] at h
    cases h
  · rw [if_neg hb] at h ⊢
    have hg : ((if st.is_running = true then Cleanup o st else (st, true)).1).engine.stepCount
        = st.engine.stepCount ∧
        ((if st.is_running = true then Cleanup o st else (st, true)).1).engine.setLog
        = st.engine.setLog := by
      by_cases hr : st.is_running = true
      · simpa [hr] using hcl
      · simp [hr]
    rcases hf : fileValidatorOk input_file o.fileStatus with e | u
    · simp [initializeCore, hf] at h
    · by_cases hop : o.openCode = 0
      case neg =>
        simp [initializeCore, hf, engineOpen, hop] at h
      case pos =>
        rcases hv : (validateInputs o m.inputs).2 with e | u2
        · simp [initializeCore, hf, ValidateMapping, hv, engineOpen, hop] at h
        · rcases hw : (validateOutputs o m.outputs).2 with e | u3
          · simp [initializeCore, hf, ValidateMapping, hv, hw, engineOpen, hop] at h
          · by_cases hsub : ((if st.is_running = true then Cleanup o st
                else (st, true)).1).subcatchment_index < 0 ∨
                o.getCount swmm_SUBCATCH ≤ ((if st.is_running = true then Cleanup o st
                else (st, true)).1).subcatchment_index
            · simp [initializeCore, hf, ValidateMapping, hv, hw, engineOpen, hop,
                hsub] at h
            · by_cases hst : o.startCode = 0
              case neg =>
                simp [initializeCore, hf, ValidateMapping, hv, hw, engineOpen,
                  engineStart, hop, hsub, hst] at h
              case pos =>
                simp [initializeCore, hf, ValidateMapping, hv, hw, engineOpen,
                  engineStart, hop, hsub, hst, hg.1, hg.2]

/-- `Calculate` keeps the session in a legitimate state. -/
theorem calculate_state_ok (o : EngineOracle) (m : Mapping) (a out : Int → Rat)
    (st : SimState) (hok : StateOK st) : StateOK (Calculate o m a out st).1 := by
  by_cases hr : st.is_running = false
  · simpa [Calculate, hr] using hok
  · rcases hok with hcl | hop
    · exact absurd hcl.1 hr
    · have hpre := processInputs_preserves o a m.inputs st.input_indices st
      unfold Calculate
      rw [if_neg hr]
      rcases hpi : (processInputs o a m.inputs st.input_indices st).2 with e | u
      · simp only [hpi]
        right
        exact ⟨by rw [hpre.1, hop.1], by rw [hpre.2.1, hop.2.1],
          by rw [hpre.2.2.1, hop.2.2]⟩
      · simp only [hpi]
        by_cases hss : ShouldStepSimulation
            (processInputs o a m.inputs st.input_indices st).1.last_swmm_time
            (a 0 / 86400) (o.getValue swmm_ROUTESTEP 0 / 86400) = true
        · rw [if_pos hss]
          by_cases hc1 : (engineStep o
              (processInputs o a m.inputs st.input_indices st).1.engine).2 < 0
          · rw [if_pos hc1]
            right
            exact ⟨by simpa [engineStep] using hpre.1.trans hop.1,
              by simpa [engineStep] using hpre.2.1.trans hop.2.1,
              by simpa [engineStep] using hpre.2.2.1.trans hop.2.2⟩
          · rw [if_neg hc1]
            by_cases hc2 : 0 < (engineStep o
                (processInputs o a m.inputs st.input_indices st).1.engine).2
            · rw [if_pos hc2]
              left
              refine cleanup_closed o _ (Or.inr ⟨?_, ?_, ?_⟩)
              · simpa [engineStep] using hpre.1.trans hop.1
              · simpa [engineStep] using hpre.2.1.trans hop.2.1
              · simpa [engineStep] using hpre.2.2.1.trans hop.2.2
            · rw [if_neg hc2]
              right
              exact ⟨by simpa [engineStep] using hpre.1.trans hop.1,
                by simpa [engineStep] using hpre.2.1.trans hop.2.1,
                by simpa [engineStep] using hpre.2.2.1.trans hop.2.2⟩
        · rw [if_neg hss]
          right
          exact ⟨hpre.1.trans hop.1, hpre.2.1.trans hop.2.1,
            hpre.2.2.1.trans hop.2.2⟩

/-- `Cleanup` keeps the session in a legitimate state. -/
theorem cleanup_state_ok (o : EngineOracle) (st : SimState) (hok : StateOK st) :
    StateOK (Cleanup o st).1 :=
  Or.inl (cleanup_closed o st hok)

/-! ### Zeroed outputs on normal termination -/

theorem zeroOutputs_not_mem (recs : List OutputMapping) (out : Int → Rat) (i : Int)
    (h : i ∉ recs.map (fun r => r.interface_index)) : zeroOutputs recs out i = out i := by
  induction recs generalizing out with
  | nil => rfl
  | cons r rest ih =>
    simp only [List.map_cons, List.mem_cons, not_or] at h
    rw [zeroOutputs, ih _ h.2, updArr, if_neg h.1]

theorem zeroOutputs_mem (recs : List OutputMapping) (out : Int → Rat) (i : Int)
    (h : i ∈ recs.map (fun r => r.interface_index)) : zeroOutputs recs out i = 0 := by
  induction recs generalizing out with
  | nil => simp at h
  | cons r rest ih =>
    by_cases hrest : i ∈ rest.map (fun r => r.interface_index)
    · rw [zeroOutputs]
      exact ih _ hrest
    · simp only [List.map_cons, List.mem_cons] at h
      rcases h with h | h
      · rw [zeroOutputs, zeroOutputs_not_mem rest _ i hrest, updArr, if_pos h]
      · exact absurd h hrest

/-- When the step call reports normal termination (positive code), `Calculate`
cleans the session up, zeroes every mapped output slot, and succeeds; the
state afterwards is closed, so another `Calculate` fails as not running. -/
theorem calculate_termination_core (o : EngineOracle) (m : Mapping)
    (a out : Int → Rat) (st : SimState)
    (hrun : OpenedStarted st)
    (hpiok : (processInputs o a m.inputs st.input_indices st).2 = .ok ())
    (hstep : ShouldStepSimulation st.last_swmm_time (a 0 / 86400)
      (o.getValue swmm_ROUTESTEP 0 / 86400) = true)
    (hend : 0 < o.stepCode (st.engine.stepCount + 1)) :
    (Calculate o m a out st).2.2 = .ok () ∧
    Closed (Calculate o m a out st).1 ∧
    (∀ r ∈ m.outputs, (Calculate o m a out st).2.1 r.interface_index = 0) := by
  have hpre := processInputs_preserves o a m.inputs st.input_indices st
  have hr : ¬ st.is_running = false := by simp [hrun.1]
  unfold Calculate
  rw [if_neg hr]
  simp only [hpiok]
  rw [hpre.2.2.2.2.1, if_pos hstep]
  have hc1 : ¬ (engineStep o
      (processInputs o a m.inputs st.input_indices st).1.engine).2 < 0 := by
    simp only [engineStep, hpre.2.2.2.1]
    omega
  have hc2 : 0 < (engineStep o
      (processInputs o a m.inputs st.input_indices st).1.engine).2 := by
    simpa only [engineStep, hpre.2.2.2.1] using hend
  rw [if_neg hc1, if_pos hc2]
  refine ⟨rfl, ?_, ?_⟩
  · refine cleanup_closed o _ (Or.inr ⟨?_, ?_, ?_⟩)
    · simpa [engineStep] using hpre.1.trans hrun.1
    · simpa [engineStep] using hpre.2.1.trans hrun.2.1
    · simpa [engineStep] using hpre.2.2.1.trans hrun.2.2
  · intro r hrr
    exact zeroOutputs_mem m.outputs out r.interface_index
      (List.mem_map_of_mem _ hrr)

/-! ### Error-message structure lemmas -/

theorem containsStr_self (s : String) : ContainsStr s s := ⟨[], [], by simp⟩

theorem elementNotFoundMsg_parts (t n : String) :
    ThreePart (elementNotFoundMsg t n) ∧ ContainsStr (elementNotFoundMsg t n) n := by
  unfold ThreePart elementNotFoundMsg
  refine ⟨⟨?_, ?_, ?_⟩, ?_⟩
  · iterate 12 apply containsStr_append_left
    exact containsStr_of_b _ _ (by decide)
  · iterate 12 apply containsStr_append_left
    exact containsStr_of_b _ _ (by decide)
  · iterate 6 apply containsStr_append_left
    apply containsStr_append_right
    exact containsStr_of_b _ _ (by decide)
  · iterate 8 apply containsStr_append_left
    apply containsStr_append_right
    exact containsStr_self n

theorem unknownInputTypeMsg_parts (r : InputMapping) :
    ThreePart (unknownInputTypeMsg r) ∧ ContainsStr (unknownInputTypeMsg r) r.name := by
  unfold ThreePart unknownInputTypeMsg
  refine ⟨⟨?_, ?_, ?_⟩, ?_⟩
  · iterate 8 apply containsStr_append_left
    exact containsStr_of_b _ _ (by decide)
  · iterate 8 apply containsStr_append_left
    exact containsStr_of_b _ _ (by decide)
  · apply containsStr_append_right
    exact containsStr_of_b _ _ (by decide)
  · iterate 2 apply containsStr_append_left
    apply containsStr_append_right
    exact containsStr_self r.name

theorem unknownOutputTypeMsg_parts (r : OutputMapping) :
    ThreePart (unknownOutputTypeMsg r) ∧ ContainsStr (unknownOutputTypeMsg r) r.name := by
  unfold ThreePart unknownOutputTypeMsg
  refine ⟨⟨?_, ?_, ?_⟩, ?_⟩
  · iterate 8 apply containsStr_append_left
    exact containsStr_of_b _ _ (by decide)
  · iterate 8 apply containsStr_append_left
    exact containsStr_of_b _ _ (by decide)
  · apply containsStr_append_right
    exact containsStr_of_b _ _ (by decide)
  · iterate 2 apply containsStr_append_left
    apply containsStr_append_right
    exact containsStr_self r.name

theorem unknownInputPropertyMsg_parts (r : InputMapping) :
    ThreePart (unknownInputPropertyMsg r) ∧
    ContainsStr (unknownInputPropertyMsg r) (r.object_type ++ (".") ++ r.property) ∧
    ContainsStr (unknownInputPropertyMsg r) r.name ∧
    ContainsStr (unknownInputPropertyMsg r) ("GAGE.RAINFALL") ∧
    ContainsStr (unknownInputPropertyMsg r) ("PUMP.SETTING") ∧
    ContainsStr (unknownInputPropertyMsg r) ("ORIFICE.SETTING") ∧
    ContainsStr (unknownInputPropertyMsg r) ("WEIR.SETTING") ∧
    ContainsStr (unknownInputPropertyMsg r) ("NODE.LATFLOW") := by
  unfold ThreePart unknownInputPropertyMsg
  refine ⟨⟨?_, ?_, ?_⟩, ?_, ?_, ?_, ?_, ?_, ?_, ?_⟩
  · iterate 9 apply containsStr_append_left
    exact containsStr_of_b _ _ (by decide)
  · iterate 9 apply containsStr_append_left
    exact containsStr_of_b _ _ (by decide)
  · iterate 1 apply containsStr_append_left
    apply containsStr_append_right
    exact containsStr_of_b _ _ (by decide)
  · exact ⟨("Error: Unknown input property combination\nContext: ").data,
      ((" for element ") ++ sq ++ r.name ++ sq ++
        ("\nSuggestion: Valid combinations are:\n  - GAGE.RAINFALL\n  - PUMP.SETTING\n") ++
        ("  - ORIFICE.SETTING\n  - WEIR.SETTING\n  - NODE.LATFLOW")).data,
      by simp [string_data_append, List.append_assoc]⟩
  · iterate 3 apply containsStr_append_left
    apply containsStr_append_right
    exact containsStr_self r.name
  · iterate 1 apply containsStr_append_left
    apply containsStr_append_right
    exact containsStr_of_b _ _ (by decide)
  · iterate 1 apply containsStr_append_left
    apply containsStr_append_right
    exact containsStr_of_b _ _ (by decide)
  · apply containsStr_append_right
    exact containsStr_of_b _ _ (by decide)
  · apply containsStr_append_right
    exact containsStr_of_b _ _ (by decide)
  · apply containsStr_append_right
    exact containsStr_of_b _ _ (by decide)

theorem unknownOutputPropertyMsg_parts (r : OutputMapping) :
    ThreePart (unknownOutputPropertyMsg r) ∧
    ContainsStr (unknownOutputPropertyMsg r) (r.object_type ++ (".") ++ r.property) ∧
    ContainsStr (unknownOutputPropertyMsg r) r.name ∧
    ContainsStr (unknownOutputPropertyMsg r) ("STORAGE.VOLUME") ∧
    ContainsStr (unknownOutputPropertyMsg r) ("OUTFALL.FLOW") ∧
    ContainsStr (unknownOutputPropertyMsg r) ("ORIFICE.FLOW") ∧
    ContainsStr (unknownOutputPropertyMsg r) ("WEIR.FLOW") ∧
    ContainsStr (unknownOutputPropertyMsg r) ("SUBCATCH.RUNOFF") := by
  unfold ThreePart unknownOutputPropertyMsg
  refine ⟨⟨?_, ?_, ?_⟩, ?_, ?_, ?_, ?_, ?_, ?_, ?_⟩
  · iterate 9 apply containsStr_append_left
    exact containsStr_of_b _ _ (by decide)
  · iterate 9 apply containsStr_append_left
    exact containsStr_of_b _ _ (by decide)
  · iterate 1 apply containsStr_append_left
    apply containsStr_append_right
    exact containsStr_of_b _ _ (by decide)
  · exact ⟨("Error: Unknown output property\nContext: ").data,
      ((" for element ") ++ sq ++ r.name ++ sq ++
        ("\nSuggestion: Valid combinations are:\n  - STORAGE.VOLUME\n  - OUTFALL.FLOW\n") ++
        ("  - ORIFICE.FLOW\n  - WEIR.FLOW\n  - SUBCATCH.RUNOFF")).data,
      by simp [string_data_append, List.append_assoc]⟩
  · iterate 3 apply containsStr_append_left
    apply containsStr_append_right
    exact containsStr_self r.name
  · iterate 1 apply containsStr_append_left
    apply containsStr_append_right
    exact containsStr_of_b _ _ (by decide)
  · iterate 1 apply containsStr_append_left
    apply containsStr_append_right
    exact containsStr_of_b _ _ (by decide)
  · apply containsStr_append_right
    exact containsStr_of_b _ _ (by decide)
  · apply containsStr_append_right
    exact containsStr_of_b _ _ (by decide)
  · apply containsStr_append_right
    exact containsStr_of_b _ _ (by decide)

theorem invalidInputHandleMsg_parts (r : InputMapping) :
    ThreePart (invalidInputHandleMsg r) ∧ ContainsStr (invalidInputHandleMsg r) r.name := by
  unfold ThreePart invalidInputHandleMsg
  refine ⟨⟨?_, ?_, ?_⟩, ?_⟩
  · iterate 7 apply containsStr_append_left
    exact containsStr_of_b _ _ (by decide)
  · iterate 7 apply containsStr_append_left
    exact containsStr_of_b _ _ (by decide)
  · apply containsStr_append_right
    exact containsStr_of_b _ _ (by decide)
  · iterate 5 apply containsStr_append_left
    apply containsStr_append_right
    exact containsStr_self r.name

theorem invalidOutputHandleMsg_parts (r : OutputMapping) :
    ThreePart (invalidOutputHandleMsg r) ∧ ContainsStr (invalidOutputHandleMsg r) r.name := by
  unfold ThreePart invalidOutputHandleMsg
  refine ⟨⟨?_, ?_, ?_⟩, ?_⟩
  · iterate 7 apply containsStr_append_left
    exact containsStr_of_b _ _ (by decide)
  · iterate 7 apply containsStr_append_left
    exact containsStr_of_b _ _ (by decide)
  · apply containsStr_append_right
    exact containsStr_of_b _ _ (by decide)
  · iterate 5 apply containsStr_append_left
    apply containsStr_append_right
    exact containsStr_self r.name

theorem subcatchRangeMsg_parts (i c : Int) : ThreePart (subcatchRangeMsg i c) := by
  unfold ThreePart subcatchRangeMsg
  refine ⟨?_, ?_, ?_⟩
  · iterate 4 apply containsStr_append_left
    exact containsStr_of_b _ _ (by decide)
  · iterate 4 apply containsStr_append_left
    exact containsStr_of_b _ _ (by decide)
  · apply containsStr_append_right
    exact containsStr_of_b _ _ (by decide)

theorem versionMsg_parts (v path : String) : ThreePart (versionMsg v path) := by
  unfold ThreePart versionMsg
  refine ⟨?_, ?_, ?_⟩
  · iterate 8 apply containsStr_append_left
    exact containsStr_of_b _ _ (by decide)
  · iterate 8 apply containsStr_append_left
    exact containsStr_of_b _ _ (by decide)
  · apply containsStr_append_right
    exact containsStr_of_b _ _ (by decide)

theorem inputCountMsg_parts (e : Int) (f : Nat) : ThreePart (inputCountMsg e f) := by
  unfold ThreePart inputCountMsg
  refine ⟨?_, ?_, ?_⟩
  · iterate 4 apply containsStr_append_left
    exact containsStr_of_b _ _ (by decide)
  · iterate 4 apply containsStr_append_left
    exact containsStr_of_b _ _ (by decide)
  · apply containsStr_append_right
    exact containsStr_of_b _ _ (by decide)

theorem outputCountMsg_parts (e : Int) (f : Nat) : ThreePart (outputCountMsg e f) := by
  unfold ThreePart outputCountMsg
  refine ⟨?_, ?_, ?_⟩
  · iterate 4 apply containsStr_append_left
    exact containsStr_of_b _ _ (by decide)
  · iterate 4 apply containsStr_append_left
    exact containsStr_of_b _ _ (by decide)
  · apply containsStr_append_right
    exact containsStr_of_b _ _ (by decide)

theorem fileEmptyMsg_parts : ThreePart fileEmptyMsg := by
  unfold ThreePart
  exact ⟨containsStr_of_b _ _ (by decide), containsStr_of_b _ _ (by decide),
    containsStr_of_b _ _ (by decide)⟩

theorem fileMissingMsg_parts (path : String) : ThreePart (fileMissingMsg path) := by
  unfold ThreePart fileMissingMsg
  refine ⟨?_, ?_, ?_⟩
  · iterate 4 apply containsStr_append_left
    exact containsStr_of_b _ _ (by decide)
  · iterate 4 apply containsStr_append_left
    exact containsStr_of_b _ _ (by decide)
  · apply containsStr_append_right
    exact containsStr_of_b _ _ (by decide)

theorem fileDirectoryMsg_parts (path : String) : ThreePart (fileDirectoryMsg path) := by
  unfold ThreePart fileDirectoryMsg
  refine ⟨?_, ?_, ?_⟩
  · iterate 4 apply containsStr_append_left
    exact containsStr_of_b _ _ (by decide)
  · iterate 4 apply containsStr_append_left
    exact containsStr_of_b _ _ (by decide)
  · apply containsStr_append_right
    exact containsStr_of_b _ _ (by decide)

/-! ### Classification of the failure paths -/

theorem inputObjType_error (r : InputMapping) (e : String)
    (h : inputObjType r = .error e) : e = unknownInputTypeMsg r := by
  unfold inputObjType at h
  split at h
  · cases h
  · split at h
    · cases h
    · split at h
      · cases h
      · cases h; rfl

theorem outputObjType_error (r : OutputMapping) (e : String)
    (h : outputObjType r = .error e) : e = unknownOutputTypeMsg r := by
  unfold outputObjType at h
  split at h
  · cases h
  · split at h
    · cases h
    · split at h
      · cases h
      · cases h; rfl

theorem inputProperty_error (r : InputMapping) (e : String)
    (h : inputProperty r = .error e) : e = unknownInputPropertyMsg r := by
  unfold inputProperty at h
  split at h
  · cases h
  · split at h
    · cases h
    · split at h
      · cases h
      · cases h; rfl

theorem outputProperty_error (r : OutputMapping) (e : String)
    (h : outputProperty r = .error e) : e = unknownOutputPropertyMsg r := by
  unfold outputProperty at h
  split at h
  · cases h
  · split at h
    · cases h
    · split at h
      · cases h
      · split at h
        · cases h
        · split at h
          · cases h
          · cases h; rfl

/-- Every failure the input half of `ValidateMapping` can produce is a
three-part diagnostic naming the offending record. -/
theorem validateInputs_error_parts (o : EngineOracle) (recs : List InputMapping)
    (e : String) (h : (validateInputs o recs).2 = .error e) :
    ThreePart e ∧ ∃ r ∈ recs, ContainsStr e r.name := by
  induction recs with
  | nil => simp [validateInputs] at h
  | cons r rest ih =>
    by_cases hsys : r.object_type = ("SYSTEM")
    · rw [validateInputs, if_pos hsys] at h
      obtain ⟨tp, r', hr', hc⟩ := ih h
      exact ⟨tp, r', List.mem_cons_of_mem _ hr', hc⟩
    · rw [validateInputs, if_neg hsys] at h
      rcases ho : inputObjType r with e' | ot
      · simp only [ho, Except.error.injEq] at h
        obtain rfl := h
        obtain rfl := inputObjType_error r e' ho
        exact ⟨(unknownInputTypeMsg_parts r).1, r, List.mem_cons_self r rest,
          (unknownInputTypeMsg_parts r).2⟩
      · simp only [ho] at h
        by_cases hi : o.getIndex ot r.name < 0
        · rw [if_pos hi] at h
          simp only [Except.error.injEq] at h
          obtain rfl := h
          exact ⟨(elementNotFoundMsg_parts r.object_type r.name).1, r,
            List.mem_cons_self r rest,
            (elementNotFoundMsg_parts r.object_type r.name).2⟩
        · rw [if_neg hi] at h
          obtain ⟨tp, r', hr', hc⟩ := ih h
          exact ⟨tp, r', List.mem_cons_of_mem _ hr', hc⟩

/-- Same for the output half. -/
theorem validateOutputs_error_parts (o : EngineOracle) (recs : List OutputMapping)
    (e : String) (h : (validateOutputs o recs).2 = .error e) :
    ThreePart e ∧ ∃ r ∈ recs, ContainsStr e r.name := by
  induction recs with
  | nil => simp [validateOutputs] at h
  | cons r rest ih =>
    rw [validateOutputs] at h
    rcases ho : outputObjType r with e' | ot
    · simp only [ho, Except.error.injEq] at h
      obtain rfl := h
      obtain rfl := outputObjType_error r e' ho
      exact ⟨(unknownOutputTypeMsg_parts r).1, r, List.mem_cons_self r rest,
        (unknownOutputTypeMsg_parts r).2⟩
    · simp only [ho] at h
      by_cases hi : o.getIndex ot r.name < 0
      · rw [if_pos hi] at h
        simp only [Except.error.injEq] at h
        obtain rfl := h
        exact ⟨(elementNotFoundMsg_parts r.object_type r.name).1, r,
          List.mem_cons_self r rest,
          (elementNotFoundMsg_parts r.object_type r.name).2⟩
      · rw [if_neg hi] at h
        obtain ⟨tp, r', hr', hc⟩ := ih h
        exact ⟨tp, r', List.mem_cons_of_mem _ hr', hc⟩

/-- Every failure of `ValidateMapping` is a three-part diagnostic naming one
of the mapped elements. -/
theorem validateMapping_error_parts (o : EngineOracle) (m : Mapping) (st : SimState)
    (e : String) (h : (ValidateMapping o m st).2 = .error e) :
    ThreePart e ∧
    ((∃ r ∈ m.inputs, ContainsStr e r.name) ∨ (∃ r ∈ m.outputs, ContainsStr e r.name)) := by
  unfold ValidateMapping at h
  rcases hi : (validateInputs o m.inputs).2 with e' | u
  · simp only [hi, Except.error.injEq] at h
    obtain rfl := h
    obtain ⟨tp, hr⟩ := validateInputs_error_parts o m.inputs e' hi
    exact ⟨tp, Or.inl hr⟩
  · simp only [hi] at h
    obtain ⟨tp, hr⟩ := validateOutputs_error_parts o m.outputs e h
    exact ⟨tp, Or.inr hr⟩

/-- Every failure the input loop of `Calculate` can produce is a three-part
diagnostic naming the offending record. -/
theorem processInputs_error_parts (o : EngineOracle) (a : Int → Rat)
    (recs : List InputMapping) (idxs : List Int) (st : SimState) (e : String)
    (h : (processInputs o a recs idxs st).2 = .error e) :
    ThreePart e ∧ ∃ r ∈ recs, ContainsStr e r.name := by
  induction recs generalizing idxs st with
  | nil => simp [processInputs] at h
  | cons r rest ih =>
    by_cases hsys : r.object_type = ("SYSTEM")
    · rw [processInputs, if_pos hsys] at h
      obtain ⟨tp, r', hr', hc⟩ := ih idxs.tail st h
      exact ⟨tp, r', List.mem_cons_of_mem _ hr', hc⟩
    · rw [processInputs, if_neg hsys] at h
      rcases hp : inputProperty r with e' | prop
      · simp only [hp, Except.error.injEq] at h
        obtain rfl := h
        obtain rfl := inputProperty_error r e' hp
        exact ⟨(unknownInputPropertyMsg_parts r).1, r, List.mem_cons_self r rest,
          (unknownInputPropertyMsg_parts r).2.2.1⟩
      · simp only [hp] at h
        by_cases hneg : idxs.headD (-1) < 0 ∧ r.object_type ≠ ("SYSTEM")
        · rw [if_pos hneg] at h
          simp only [Except.error.injEq] at h
          obtain rfl := h
          exact ⟨(invalidInputHandleMsg_parts r).1, r, List.mem_cons_self r rest,
            (invalidInputHandleMsg_parts r).2⟩
        · rw [if_neg hneg] at h
          obtain ⟨tp, r', hr', hc⟩ := ih idxs.tail _ h
          exact ⟨tp, r', List.mem_cons_of_mem _ hr', hc⟩

/-- Same for the output loop of `Calculate`. -/
theorem processOutputs_error_parts (o : EngineOracle) (recs : List OutputMapping)
    (idxs : List Int) (out : Int → Rat) (e : String)
    (h : (processOutputs o recs idxs out).2 = .error e) :
    ThreePart e ∧ ∃ r ∈ recs, ContainsStr e r.name := by
  induction recs generalizing idxs out with
  | nil => simp [processOutputs] at h
  | cons r rest ih =>
    rw [processOutputs] at h
    by_cases hneg : idxs.headD (-1) < 0
    · rw [if_pos hneg] at h
      simp only [Except.error.injEq] at h
      obtain rfl := h
      exact ⟨(invalidOutputHandleMsg_parts r).1, r, List.mem_cons_self r rest,
        (invalidOutputHandleMsg_parts r).2⟩
    · rw [if_neg hneg] at h
      rcases hp : outputProperty r with e' | prop
      · simp only [hp, Except.error.injEq] at h
        obtain rfl := h
        obtain rfl := outputProperty_error r e' hp
        exact ⟨(unknownOutputPropertyMsg_parts r).1, r, List.mem_cons_self r rest,
          (unknownOutputPropertyMsg_parts r).2.2.1⟩
      · simp only [hp] at h
        obtain ⟨tp, r', hr', hc⟩ := ih idxs.tail _ h
        exact ⟨tp, r', List.mem_cons_of_mem _ hr', hc⟩

/-- Every failure of the semantic mapping-file checks is a three-part
diagnostic. -/
theorem loadFromFile_error_parts (path : String) (p : ParsedMappingFile) (e : String)
    (h : loadFromFile path p = .error e) : ThreePart e := by
  unfold loadFromFile at h
  split at h
  · cases h; exact versionMsg_parts _ _
  · split at h
    · cases h; exact inputCountMsg_parts _ _
    · split at h
      · cases h; exact outputCountMsg_parts _ _
      · cases h

/-- Every failure of `FileValidator::Exists` is a three-part diagnostic. -/
theorem fileValidator_error_parts (path : String) (fs : FileStatus) (e : String)
    (h : fileValidatorOk path fs = .error e) : ThreePart e := by
  unfold fileValidatorOk at h
  split at h
  · cases h; exact fileEmptyMsg_parts
  · split at h
    · cases h; exact fileMissingMsg_parts _
    · cases h; exact fileDirectoryMsg_parts _
    · cases h

/-! ### The accepted input pairs (spec-side restatement for the check) -/

/-- The accepted input `(type_tag, property)` combinations, written exactly
as the conditions of the cascade at lines 362-376. -/
def acceptedInputPair (r : InputMapping) : Prop :=
  (r.object_type = ("GAGE") ∧ r.property = ("RAINFALL")) ∨
  ((r.object_type = ("PUMP") ∨ r.object_type = ("ORIFICE") ∨
    r.object_type = ("WEIR")) ∧ r.property = ("SETTING")) ∨
  (r.object_type = ("NODE") ∧ r.property = ("LATFLOW"))

theorem inputProperty_accepted (r : InputMapping) (h : acceptedInputPair r) :
    ∃ c, inputProperty r = .ok c := by
  unfold inputProperty
  rcases h with h | h | h
  · rw [if_pos h]; exact ⟨_, rfl⟩
  · by_cases h1 : r.object_type = ("GAGE") ∧ r.property = ("RAINFALL")
    · rw [if_pos h1]; exact ⟨_, rfl⟩
    · rw [if_neg h1, if_pos h]; exact ⟨_, rfl⟩
  · by_cases h1 : r.object_type = ("GAGE") ∧ r.property = ("RAINFALL")
    · rw [if_pos h1]; exact ⟨_, rfl⟩
    · by_cases h2 : (r.object_type = ("PUMP") ∨ r.object_type = ("ORIFICE") ∨
          r.object_type = ("WEIR")) ∧ r.property = ("SETTING")
      · rw [if_neg h1, if_pos h2]; exact ⟨_, rfl⟩
      · rw [if_neg h1, if_neg h2, if_pos h]; exact ⟨_, rfl⟩

theorem inputProperty_rejected (r : InputMapping) (h : ¬ acceptedInputPair r) :
    inputProperty r = .error (unknownInputPropertyMsg r) := by
  unfold inputProperty
  rw [if_neg (fun hc => h (Or.inl hc)), if_neg (fun hc => h (Or.inr (Or.inl hc))),
    if_neg (fun hc => h (Or.inr (Or.inr hc)))]

/-- Record-level name resolution at `Initialize` time never consults the
`property` field. -/
theorem validateInputs_ignores_property (o : EngineOracle)
    (recs : List InputMapping) (f : InputMapping → String) :
    validateInputs o (recs.map (fun r => { r with property := f r })) =
    validateInputs o recs := by
  induction recs with
  | nil => rfl
  | cons r rest ih =>
    by_cases hsys : r.object_type = ("SYSTEM")
    · simp only [List.map_cons]
      rw [validateInputs, validateInputs, if_pos hsys, if_pos hsys, ih]
    · simp only [List.map_cons]
      rw [validateInputs, validateInputs, if_neg hsys, if_neg hsys]
      have hobj : inputObjType { r with property := f r } = inputObjType r := by
        unfold inputObjType
        rfl
      rw [hobj]
      rcases inputObjType r with e | ot
      · rfl
      · simp only []
        by_cases hi : o.getIndex ot r.name < 0
        · rw [if_pos hi, if_pos hi]
        · rw [if_neg hi, if_neg hi, ih]

/-! ### Concrete scenarios -/

/-- All-zero array. -/
def zeroArr : Int → Rat := fun _ => 0

/-- A driver array with slot 0 and slot 1 populated. -/
def arr2 (a b : Rat) : Int → Rat :=
  fun i => if i = 0 then a else if i = 1 then b else 0

/-- The spec's own two-input demo interface: elapsed time plus one rain
gage. -/
def demoInputs : List InputMapping :=
  [⟨0, ("ETime"), ("SYSTEM"), ("ELAPSEDTIME"), -1⟩,
   ⟨1, ("RG1"), ("GAGE"), ("RAINFALL"), -1⟩]

def demoParsed : ParsedMappingFile := ⟨("1.0"), (""), 2, 0, demoInputs, []⟩

def demoMapping : Mapping := ⟨demoInputs, []⟩

/-- A healthy engine: every call succeeds, `RG1` resolves to handle 0, one
subcatchment exists, and every value read is 0. -/
def demoOracle : EngineOracle :=
  { openCode := 0, startCode := 0, stepCode := fun _ => 0, endCode := 0,
    closeCode := 0,
    getIndex := fun _ n => if n = ("RG1") then 0 else -1,
    getCount := fun _ => 1, getValue := fun _ _ => 0,
    errorMsg := (""), fileStatus := .present, mappingParse := .ok demoParsed }

/-- State after a successful `Initialize` against `demoOracle`. -/
def demoSt1 : SimState :=
  ⟨true, 0, -1, 0, (""), [-1, 0], [], ⟨true, true, 0, []⟩⟩

/-- State after the first exchange (inputs: time 0, rainfall 5). -/
def demoSt2 : SimState :=
  ⟨true, 0, 0, 0, (""), [-1, 0], [], ⟨true, true, 1, [(100, 0, 5)]⟩⟩

/-- State after the second exchange (inputs: time 60, rainfall 7). -/
def demoSt3 : SimState :=
  ⟨true, 0, 1 / 1440, 0, (""), [-1, 0], [], ⟨true, true, 2, [(100, 0, 5), (100, 0, 7)]⟩⟩

theorem demo_load : LoadMappingFile demoOracle = .ok demoMapping := by
  simp [LoadMappingFile, demoOracle, loadFromFile, demoParsed, demoInputs, demoMapping]

theorem demo_init : Initialize demoOracle demoMapping SimState.init = (demoSt1, .ok ()) := by
  simp [Initialize, initializeCore, SimState.init, EngineState.init, demoOracle,
    demoMapping, demoInputs, fileValidatorOk, input_file, engineOpen,
    ValidateMapping, validateInputs, inputObjType, validateOutputs, engineStart,
    demoSt1, swmm_GAGE, swmm_SUBCATCH]

theorem demo_calc1 :
    Calculate demoOracle demoMapping (arr2 0 5) zeroArr demoSt1 =
      (demoSt2, zeroArr, .ok ()) := by
  simp [Calculate, demoSt1, demoMapping, demoInputs, processInputs, inputProperty,
    engineSetValue, ShouldStepSimulation, engineStep, demoOracle, processOutputs,
    arr2, zeroArr, demoSt2, swmm_GAGE_RAINFALL, swmm_ROUTESTEP]

theorem demo_calc2 :
    Calculate demoOracle demoMapping (arr2 60 7) zeroArr demoSt2 =
      (demoSt3, zeroArr, .ok ()) := by
  have h1440 : (60 : Rat) / 86400 = 1 / 1440 := by norm_num
  simp [Calculate, demoSt2, demoMapping, demoInputs, processInputs, inputProperty,
    engineSetValue, ShouldStepSimulation, engineStep, demoOracle, processOutputs,
    arr2, zeroArr, demoSt3, swmm_GAGE_RAINFALL, swmm_ROUTESTEP, h1440]

theorem demo_hinit :
    HandleInitialize demoOracle BridgeState.init zeroArr =
      ⟨⟨demoSt1, demoMapping, true, 0, -1⟩, .Success, zeroArr, none⟩ := by
  simp [HandleInitialize, demo_load, BridgeState.init, demo_init]

theorem demo_hcalc1 :
    HandleCalculate demoOracle ⟨demoSt1, demoMapping, true, 0, -1⟩ (arr2 0 5) zeroArr =
      ⟨⟨demoSt2, demoMapping, true, 1, 0⟩, .Success, zeroArr, none⟩ := by
  simp [HandleCalculate, demo_calc1, arr2]

theorem demo_hcalc2 :
    HandleCalculate demoOracle ⟨demoSt2, demoMapping, true, 1, 0⟩ (arr2 60 7) zeroArr =
      ⟨⟨demoSt3, demoMapping, true, 2, 60⟩, .Success, zeroArr, none⟩ := by
  simp [HandleCalculate, demo_calc2, arr2]

/-! ### Claim C1 -/

/-- C1 counterexample: in a concrete session (inputs ETime/SYSTEM and
RG1/GAGE-RAINFALL), exchange 1 supplies rainfall 5 and exchange 2 supplies
rainfall 7; the engine write performed during exchange 2 carries the value 7
just supplied, not the value 5 from exchange 1 — the claimed one-call input
lag does not exist in this code. -/
theorem C1_counterexample :
    (HandleCalculate demoOracle
        (HandleCalculate demoOracle
          (HandleInitialize demoOracle BridgeState.init zeroArr).bridge
          (arr2 0 5) zeroArr).bridge
        (arr2 60 7) zeroArr).bridge.sim.engine.setLog =
      [(swmm_GAGE_RAINFALL, 0, 5), (swmm_GAGE_RAINFALL, 0, 7)] ∧
    (7 : Rat) ≠ 5 := by
  refine ⟨?_, by norm_num⟩
  simp only [demo_hinit, demo_hcalc1, demo_hcalc2, demoSt3, swmm_GAGE_RAINFALL]

/-- C1 (amended): on every exchange of a running session whose input loop
accepts, `Calculate` applies to the bound engine channels exactly the input
values supplied **in the current call** (per `currentInputLog`, skipping
SYSTEM bindings), and — whenever the step condition holds — then advances the
engine by exactly one internal step; no previously stashed inputs exist. -/
theorem C1_exchange_applies_current_inputs (o : EngineOracle) (m : Mapping)
    (a out : Int → Rat) (st : SimState) (log : List (Int × Int × Rat))
    (hrun : st.is_running = true)
    (hlog : currentInputLog a m.inputs st.input_indices = some log)
    (hstep : ShouldStepSimulation st.last_swmm_time (a 0 / 86400)
      (o.getValue swmm_ROUTESTEP 0 / 86400) = true) :
    (Calculate o m a out st).1.engine.setLog = st.engine.setLog ++ log ∧
    (Calculate o m a out st).1.engine.stepCount = st.engine.stepCount + 1 :=
  calculate_applies_current_inputs o m a out st log hrun hlog hstep

theorem C1_witness :
    (Calculate demoOracle demoMapping (arr2 60 7) zeroArr demoSt2).1.engine.setLog =
      demoSt2.engine.setLog ++ [(swmm_GAGE_RAINFALL, 0, 7)] ∧
    (Calculate demoOracle demoMapping (arr2 60 7) zeroArr demoSt2).1.engine.stepCount =
      demoSt2.engine.stepCount + 1 :=
  C1_exchange_applies_current_inputs demoOracle demoMapping (arr2 60 7) zeroArr
    demoSt2 [(swmm_GAGE_RAINFALL, 0, 7)] rfl
    (by simp [currentInputLog, demoMapping, demoInputs, demoSt2, inputProperty,
      arr2, swmm_GAGE_RAINFALL])
    (by norm_num [ShouldStepSimulation, demoSt2, demoOracle, arr2, swmm_ROUTESTEP])

/-! ### Claim C2 -/

/-- C2 counterexample: calling Exchange once after a successful Initialize
leaves the engine's step counter at 1, not 0 — the first exchange does step
the engine (and still reports Success). -/
theorem C2_counterexample :
    (HandleCalculate demoOracle
        (HandleInitialize demoOracle BridgeState.init zeroArr).bridge
        (arr2 0 5) zeroArr).bridge.sim.engine.stepCount ≠ 0 ∧
    (HandleCalculate demoOracle
        (HandleInitialize demoOracle BridgeState.init zeroArr).bridge
        (arr2 0 5) zeroArr).status = Status.Success := by
  simp only [demo_hinit, demo_hcalc1, demoSt2]
  exact ⟨by norm_num, trivial⟩

/-- C2 (amended): the first Exchange after a successful Initialize **always**
calls the engine's step function: `Initialize` leaves `last_swmm_time_ = -1`,
so `ShouldStepSimulation` returns true on the first call and the engine's
step counter increases by one (whatever the step call returns). -/
theorem C2_first_exchange_steps (o : EngineOracle) (m : Mapping)
    (a out : Int → Rat) (st st' : SimState) (log : List (Int × Int × Rat))
    (hinit : Initialize o m st = (st', .ok ()))
    (hlog : currentInputLog a m.inputs st'.input_indices = some log) :
    (Calculate o m a out st').1.engine.stepCount = st'.engine.stepCount + 1 := by
  have h2 : (Initialize o m st).2 = .ok () := by rw [hinit]
  have hs := initialize_ok_state o m st h2
  have hst1 : (Initialize o m st).1 = st' := by rw [hinit]
  rw [hst1] at hs
  have hneg : st'.last_swmm_time < 0 := by rw [hs.2.1]; norm_num
  have hstep : ShouldStepSimulation st'.last_swmm_time (a 0 / 86400)
      (o.getValue swmm_ROUTESTEP 0 / 86400) = true := by
    rw [ShouldStepSimulation, if_pos hneg]
  exact (calculate_applies_current_inputs o m a out st' log hs.1 hlog hstep).2

theorem C2_witness :
    (Calculate demoOracle demoMapping (arr2 0 5) zeroArr demoSt1).1.engine.stepCount =
      demoSt1.engine.stepCount + 1 :=
  C2_first_exchange_steps demoOracle demoMapping (arr2 0 5) zeroArr SimState.init
    demoSt1 [(swmm_GAGE_RAINFALL, 0, 5)] demo_init
    (by simp [currentInputLog, demoMapping, demoInputs, demoSt1, inputProperty,
      arr2, swmm_GAGE_RAINFALL])

/-! ### Claim C3 -/

/-- A mapping whose only input record carries the unknown property `BOGUS`
on a resolvable GAGE element. -/
def badPropInputs : List InputMapping :=
  [⟨0, ("RG1"), ("GAGE"), ("BOGUS"), -1⟩]

def badPropParsed : ParsedMappingFile := ⟨("1.0"), (""), 1, 0, badPropInputs, []⟩

def badPropOracle : EngineOracle :=
  { demoOracle with mappingParse := .ok badPropParsed }

/-- C3 counterexample: the pair `(GAGE, BOGUS)` lies outside the accepted
set, yet Initialize succeeds — name resolution never consults the property,
so the claimed `UnknownProperty` failure at Initialize does not happen (it
is the first Exchange that fails). -/
theorem C3_counterexample :
    (HandleInitialize badPropOracle BridgeState.init zeroArr).status = Status.Success ∧
    Status.Success ≠ Status.FailureWithMessage := by
  refine ⟨?_, by simp⟩
  simp [HandleInitialize, LoadMappingFile, badPropOracle, demoOracle, loadFromFile,
    badPropParsed, badPropInputs, BridgeState.init, Initialize, initializeCore,
    SimState.init, EngineState.init, fileValidatorOk, input_file, engineOpen,
    ValidateMapping, validateInputs, inputObjType, validateOutputs, engineStart,
    swmm_GAGE, swmm_SUBCATCH]

/-- C3 (amended): the `(type_tag, property)` check happens in the Exchange
operation, not at Initialize: every pair in the accepted set resolves to a
channel, every pair outside it makes the Exchange-time input loop fail with
the Unknown-property diagnostic that names the rejected pair and lists the
accepted combinations — while Initialize-time name resolution ignores the
property field entirely. -/
theorem C3_property_check_at_exchange (r : InputMapping) (o : EngineOracle)
    (recs : List InputMapping) (f : InputMapping → String) :
    (acceptedInputPair r → ∃ c, inputProperty r = .ok c) ∧
    (¬ acceptedInputPair r →
      inputProperty r = .error (unknownInputPropertyMsg r) ∧
      ContainsStr (unknownInputPropertyMsg r) (r.object_type ++ (".") ++ r.property) ∧
      ContainsStr (unknownInputPropertyMsg r) ("GAGE.RAINFALL") ∧
      ContainsStr (unknownInputPropertyMsg r) ("PUMP.SETTING") ∧
      ContainsStr (unknownInputPropertyMsg r) ("ORIFICE.SETTING") ∧
      ContainsStr (unknownInputPropertyMsg r) ("WEIR.SETTING") ∧
      ContainsStr (unknownInputPropertyMsg r) ("NODE.LATFLOW")) ∧
    validateInputs o (recs.map (fun x => { x with property := f x })) =
      validateInputs o recs := by
  refine ⟨inputProperty_accepted r, fun h => ?_,
    validateInputs_ignores_property o recs f⟩
  have hp := unknownInputPropertyMsg_parts r
  exact ⟨inputProperty_rejected r h, hp.2.1, hp.2.2.2.1, hp.2.2.2.2.1,
    hp.2.2.2.2.2.1, hp.2.2.2.2.2.2.1, hp.2.2.2.2.2.2.2⟩

theorem C3_witness :
    ∃ c, inputProperty ⟨1, ("RG1"), ("GAGE"), ("RAINFALL"), -1⟩ = .ok c :=
  (C3_property_check_at_exchange ⟨1, ("RG1"), ("GAGE"), ("RAINFALL"), -1⟩
    demoOracle demoInputs (fun _ => ("X"))).1 (by left; exact ⟨rfl, rfl⟩)

/-! ### Claim C4 -/

/-- C4: any Initialize failure leaves the session fully torn down (engine
closed, not running); success leaves it Opened+Started; and Initialize,
Calculate and Cleanup each keep the session in one of those two states. -/
theorem C4_initialize_teardown (o : EngineOracle) (m : Mapping)
    (a out : Int → Rat) (st : SimState) (hok : StateOK st) :
    ((∃ e, (Initialize o m st).2 = .error e) → Closed (Initialize o m st).1) ∧
    ((Initialize o m st).2 = .ok () → OpenedStarted (Initialize o m st).1) ∧
    StateOK (Initialize o m st).1 ∧
    StateOK (Calculate o m a out st).1 ∧
    StateOK (Cleanup o st).1 := by
  rcases initialize_cases o m st hok with ⟨hOS, hOk⟩ | ⟨hC, e, hE⟩
  · refine ⟨?_, fun _ => hOS, Or.inr hOS, calculate_state_ok o m a out st hok,
      cleanup_state_ok o st hok⟩
    rintro ⟨e, he⟩
    rw [hOk] at he
    cases he
  · refine ⟨fun _ => hC, ?_, Or.inl hC, calculate_state_ok o m a out st hok,
      cleanup_state_ok o st hok⟩
    intro h
    rw [hE] at h
    cases h

theorem C4_witness :
    ((∃ e, (Initialize demoOracle demoMapping SimState.init).2 = .error e) →
      Closed (Initialize demoOracle demoMapping SimState.init).1) ∧
    ((Initialize demoOracle demoMapping SimState.init).2 = .ok () →
      OpenedStarted (Initialize demoOracle demoMapping SimState.init).1) ∧
    StateOK (Initialize demoOracle demoMapping SimState.init).1 ∧
    StateOK (Calculate demoOracle demoMapping (arr2 0 5) zeroArr SimState.init).1 ∧
    StateOK (Cleanup demoOracle SimState.init).1 :=
  C4_initialize_teardown demoOracle demoMapping (arr2 0 5) zeroArr SimState.init
    (Or.inl ⟨rfl, rfl, rfl⟩)

/-! ### Claim C5 -/

/-- C5: with a supported version, the Mapping Loader fails with the
count-mismatch ConfigurationError diagnostic whenever the parsed input or
output records do not number the declared counts, and otherwise produces
exactly the parsed (and hence declared-count) collections. -/
theorem C5_loader_counts (p : ParsedMappingFile) (hv : p.version = ("1.0")) :
    ((p.inputs.length : Int) ≠ p.input_count →
      loadFromFile mapping_file p =
        .error (inputCountMsg p.input_count p.inputs.length) ∧
      ThreePart (inputCountMsg p.input_count p.inputs.length)) ∧
    ((p.inputs.length : Int) = p.input_count →
      (p.outputs.length : Int) ≠ p.output_count →
      loadFromFile mapping_file p =
        .error (outputCountMsg p.output_count p.outputs.length) ∧
      ThreePart (outputCountMsg p.output_count p.outputs.length)) ∧
    ((p.inputs.length : Int) = p.input_count →
      (p.outputs.length : Int) = p.output_count →
      loadFromFile mapping_file p = .ok ⟨p.inputs, p.outputs⟩) := by
  unfold loadFromFile
  rw [if_neg (by simp [hv])]
  refine ⟨fun h1 => ?_, fun h1 h2 => ?_, fun h1 h2 => ?_⟩
  · rw [if_pos h1]
    exact ⟨rfl, inputCountMsg_parts _ _⟩
  · rw [if_neg (by simp [h1]), if_pos h2]
    exact ⟨rfl, outputCountMsg_parts _ _⟩
  · rw [if_neg (by simp [h1]), if_neg (by simp [h2])]

theorem C5_witness :
    (((demoParsed.inputs.length : Int) ≠ demoParsed.input_count →
      loadFromFile mapping_file demoParsed =
        .error (inputCountMsg demoParsed.input_count demoParsed.inputs.length) ∧
      ThreePart (inputCountMsg demoParsed.input_count demoParsed.inputs.length)) ∧
    ((demoParsed.inputs.length : Int) = demoParsed.input_count →
      (demoParsed.outputs.length : Int) ≠ demoParsed.output_count →
      loadFromFile mapping_file demoParsed =
        .error (outputCountMsg demoParsed.output_count demoParsed.outputs.length) ∧
      ThreePart (outputCountMsg demoParsed.output_count demoParsed.outputs.length)) ∧
    ((demoParsed.inputs.length : Int) = demoParsed.input_count →
      (demoParsed.outputs.length : Int) = demoParsed.output_count →
      loadFromFile mapping_file demoParsed = .ok ⟨demoParsed.inputs, demoParsed.outputs⟩)) :=
  C5_loader_counts demoParsed rfl

/-! ### Claim C6 -/

/-- `MappingLoader.cpp` lines 292-296 (file-open failure). -/
def mappingNotFoundMsg (path : String) : String :=
  ("Error: Mapping file not found\nContext: File path ") ++ sq ++ path ++ sq ++
  ("\nSuggestion: Ensure the mapping file exists and is accessible")

/-- An environment in which the mapping file cannot be read. -/
def missingMapOracle : EngineOracle :=
  { demoOracle with mappingParse := .error (mappingNotFoundMsg mapping_file) }

/-- C6 counterexample: Exchange invoked on a fresh (not running) session
whose mapping file is missing returns `FailureWithMessage` (the mapping-load
diagnostic), not the claimed plain `Failure`. -/
theorem C6_counterexample :
    BridgeState.init.sim.is_running = false ∧
    (HandleCalculate missingMapOracle BridgeState.init (arr2 0 0) zeroArr).status =
      Status.FailureWithMessage ∧
    Status.FailureWithMessage ≠ Status.Failure := by
  refine ⟨rfl, ?_, by simp⟩
  simp [HandleCalculate, BridgeState.init, LoadMappingFile, missingMapOracle,
    demoOracle]

/-- C6 (amended): when the mapping is already loaded, Exchange on a session
that is not Opened+Started fails with the recoverable not-running condition:
plain `Failure`, no message, the simulation state untouched (only the call
counter advances); a mapping-load failure would instead surface as
`FailureWithMessage` before the not-running check. -/
theorem C6_not_running_plain_failure (o : EngineOracle) (b : BridgeState)
    (a out : Int → Rat) (hrun : b.sim.is_running = false)
    (hldd : b.mapping_loaded = true) :
    HandleCalculate o b a out =
      ⟨{ b with calculate_call_count := b.calculate_call_count + 1 },
       .Failure, out, none⟩ := by
  simp [HandleCalculate, hldd, calculate_not_running o b.mapping a out b.sim hrun,
    hrun, notRunningMsg]

theorem C6_witness :
    HandleCalculate demoOracle ⟨SimState.init, demoMapping, true, 0, -1⟩
        (arr2 0 0) zeroArr =
      ⟨{ (⟨SimState.init, demoMapping, true, 0, -1⟩ : BridgeState) with
          calculate_call_count := 0 + 1 }, .Failure, zeroArr, none⟩ :=
  C6_not_running_plain_failure demoOracle ⟨SimState.init, demoMapping, true, 0, -1⟩
    (arr2 0 0) zeroArr rfl rfl

/-! ### Claim C7 -/

theorem cleanup_fst_not_running (o : EngineOracle) (st : SimState) :
    (Cleanup o st).1.is_running = false := by
  by_cases hr : st.is_running = false
  · simp [Cleanup, hr]
  · unfold Cleanup
    rw [if_neg hr]
    by_cases he : o.endCode = 0 <;> by_cases hc : o.closeCode = 0 <;>
      simp [engineEnd, engineClose, he, hc]

/-- C7: Cleanup is idempotent — trivially successful when not running
(including on a never-initialized session and on a second call in a row), it
ends then closes the engine when running, and it always leaves the session
not running with the engine closed, even when the end or close step reports
an error; at the dispatcher level a not-running Cleanup reports `Success`
and a repeated Cleanup always reports `Success`. -/
theorem C7_cleanup_idempotent (o : EngineOracle) (st : SimState)
    (b : BridgeState) (out : Int → Rat) :
    (st.is_running = false → Cleanup o st = (st, true)) ∧
    (Cleanup o st).1.is_running = false ∧
    (st.is_running = true →
      (Cleanup o st).1.engine.opened = false ∧
      (Cleanup o st).1.engine.started = false ∧
      (Cleanup o st).2 = (o.endCode == 0 && o.closeCode == 0)) ∧
    Cleanup o (Cleanup o st).1 = ((Cleanup o st).1, true) ∧
    (b.sim.is_running = false → HandleCleanup o b out =
      ⟨{ b with sim := b.sim, calculate_call_count := 0, last_logged_time := -1 },
       .Success, out, none⟩) ∧
    (HandleCleanup o (HandleCleanup o b out).bridge out).status = Status.Success := by
  refine ⟨fun h => by simp [Cleanup, h], cleanup_fst_not_running o st,
    fun h => ?_, ?_, fun h => ?_, ?_⟩
  · have hr : ¬ st.is_running = false := by simp [h]
    refine ⟨?_, ?_, cleanup_result o st h⟩ <;>
    · unfold Cleanup
      rw [if_neg hr]
      by_cases he : o.endCode = 0 <;> by_cases hc : o.closeCode = 0 <;>
        simp [engineEnd, engineClose, he, hc]
  · have h := cleanup_fst_not_running o st
    generalize hgen : (Cleanup o st).1 = st1 at h ⊢
    simp [Cleanup, h]
  · simp [HandleCleanup, Cleanup, h]
  · have hfst : (HandleCleanup o b out).bridge.sim = (Cleanup o b.sim).1 := by
      unfold HandleCleanup
      by_cases hc2 : (Cleanup o b.sim).2 <;> simp [hc2]
    have h1 : (HandleCleanup o b out).bridge.sim.is_running = false := by
      rw [hfst]; exact cleanup_fst_not_running o b.sim
    generalize hgen : (HandleCleanup o b out).bridge = b1 at h1 ⊢
    simp [HandleCleanup, Cleanup, h1]

theorem C7_witness :
    (SimState.init.is_running = false →
      Cleanup demoOracle SimState.init = (SimState.init, true)) ∧
    (Cleanup demoOracle SimState.init).1.is_running = false ∧
    (SimState.init.is_running = true →
      (Cleanup demoOracle SimState.init).1.engine.opened = false ∧
      (Cleanup demoOracle SimState.init).1.engine.started = false ∧
      (Cleanup demoOracle SimState.init).2 =
        (demoOracle.endCode == 0 && demoOracle.closeCode == 0)) ∧
    Cleanup demoOracle (Cleanup demoOracle SimState.init).1 =
      ((Cleanup demoOracle SimState.init).1, true) ∧
    (BridgeState.init.sim.is_running = false →
      HandleCleanup demoOracle BridgeState.init zeroArr =
      ⟨{ BridgeState.init with
           sim := BridgeState.init.sim,
           calculate_call_count := 0,
           last_logged_time := -1 },
       .Success, zeroArr, none⟩) ∧
    (HandleCleanup demoOracle
      (HandleCleanup demoOracle BridgeState.init zeroArr).bridge zeroArr).status =
        Status.Success :=
  C7_cleanup_idempotent demoOracle SimState.init BridgeState.init zeroArr

/-! ### Claim C8 -/

/-- An environment whose engine fails to open and reports the bare text
`boom` through its error accessor. -/
def engineFailOracle : EngineOracle :=
  { demoOracle with openCode := 1, errorMsg := ("boom") }

/-- C8 counterexample: an engine-reported fatal condition is propagated
verbatim — Initialize returns `FailureWithMessage` whose text is the
engine's own `boom`, which is not a three-part kind/context/suggestion
message. -/
theorem C8_counterexample :
    (HandleInitialize engineFailOracle BridgeState.init zeroArr).status =
      Status.FailureWithMessage ∧
    (HandleInitialize engineFailOracle BridgeState.init zeroArr).message =
      some ("boom") ∧
    ¬ ThreePart ("boom") := by
  have h : HandleInitialize engineFailOracle BridgeState.init zeroArr =
      ⟨⟨{ SimState.init with error_buffer := ("boom") }, demoMapping, true, 0, -1⟩,
       .FailureWithMessage, zeroArr, some ("boom")⟩ := by
    simp [HandleInitialize, LoadMappingFile, engineFailOracle, demoOracle,
      loadFromFile, demoParsed, demoInputs, demoMapping, Initialize,
      initializeCore, BridgeState.init, SimState.init, fileValidatorOk,
      input_file, engineOpen, EngineState.init]
  refine ⟨by rw [h], by rw [h], ?_⟩
  rintro ⟨-, hc, -⟩
  have hlen := containsStr_length_le _ _ hc
  have h8 : ("Context:").data.length = 8 := rfl
  have h4 : ("boom").data.length = 4 := rfl
  rw [h8, h4] at hlen
  omega

/-- C8 (amended): every fatal condition the **bridge itself** classifies —
mapping-resolution failures, Exchange-time property/handle failures,
mapping-file configuration errors, input-file validation failures — carries
a three-part message with the literal markers and (for element failures)
the offending identifier, and an Initialize failure is reported to the
driver as `FailureWithMessage` bearing exactly that message; the recoverable
not-running condition is reported as plain `Failure` with no message.
Engine-reported errors are propagated verbatim instead. -/
theorem C8_fatal_three_part (o : EngineOracle) (m : Mapping) (st : SimState)
    (b : BridgeState) (a out : Int → Rat) (path : String)
    (p : ParsedMappingFile) (fs : FileStatus) (idxs : List Int) :
    (∀ e, (ValidateMapping o m st).2 = .error e → ThreePart e ∧
      ((∃ r ∈ m.inputs, ContainsStr e r.name) ∨
       (∃ r ∈ m.outputs, ContainsStr e r.name))) ∧
    (∀ e, (processInputs o a m.inputs idxs st).2 = .error e →
      ThreePart e ∧ ∃ r ∈ m.inputs, ContainsStr e r.name) ∧
    (∀ e, (processOutputs o m.outputs idxs out).2 = .error e →
      ThreePart e ∧ ∃ r ∈ m.outputs, ContainsStr e r.name) ∧
    (∀ e, loadFromFile path p = .error e → ThreePart e) ∧
    (∀ e, fileValidatorOk path fs = .error e → ThreePart e) ∧
    (∀ e m2, LoadMappingFile o = .ok m2 → (Initialize o m2 b.sim).2 = .error e →
      (HandleInitialize o b out).status = Status.FailureWithMessage ∧
      (HandleInitialize o b out).message = some e) ∧
    (b.sim.is_running = false → b.mapping_loaded = true →
      (HandleCalculate o b a out).status = Status.Failure ∧
      (HandleCalculate o b a out).message = none) := by
  refine ⟨fun e he => validateMapping_error_parts o m st e he,
    fun e he => processInputs_error_parts o a m.inputs idxs st e he,
    fun e he => processOutputs_error_parts o m.outputs idxs out e he,
    fun e he => loadFromFile_error_parts path p e he,
    fun e he => fileValidator_error_parts path fs e he,
    fun e m2 hm hi => ?_, fun h1 h2 => ?_⟩
  · constructor <;> simp [HandleInitialize, hm, hi]
  · have hh : HandleCalculate o b a out =
        ⟨{ b with calculate_call_count := b.calculate_call_count + 1 },
         .Failure, out, none⟩ := by
      simp [HandleCalculate, h2, calculate_not_running o b.mapping a out b.sim h1,
        h1, notRunningMsg]
    rw [hh]
    exact ⟨rfl, rfl⟩

theorem C8_witness :
    (HandleCalculate demoOracle ⟨SimState.init, demoMapping, true, 0, -1⟩
        (arr2 0 0) zeroArr).status = Status.Failure ∧
    (HandleCalculate demoOracle ⟨SimState.init, demoMapping, true, 0, -1⟩
        (arr2 0 0) zeroArr).message = none :=
  (C8_fatal_three_part demoOracle demoMapping SimState.init
    ⟨SimState.init, demoMapping, true, 0, -1⟩ (arr2 0 0) zeroArr mapping_file
    demoParsed .present []).2.2.2.2.2.2 rfl rfl

/-! ### Claim C9 -/

/-- C9: when the engine's step call reports normal termination (positive
code) during an exchange, `Calculate` tears the session down (closed, not
running), writes `0.0` into every mapped output slot, and returns success
(`Success` at the dispatcher); any following Exchange fails as not-running. -/
theorem C9_normal_termination (o : EngineOracle) (m : Mapping)
    (a out : Int → Rat) (st : SimState)
    (hrun : OpenedStarted st)
    (hlog : ∃ log, currentInputLog a m.inputs st.input_indices = some log)
    (hstep : ShouldStepSimulation st.last_swmm_time (a 0 / 86400)
      (o.getValue swmm_ROUTESTEP 0 / 86400) = true)
    (hend : 0 < o.stepCode (st.engine.stepCount + 1)) :
    (Calculate o m a out st).2.2 = .ok () ∧
    Closed (Calculate o m a out st).1 ∧
    (∀ r ∈ m.outputs, (Calculate o m a out st).2.1 r.interface_index = 0) ∧
    (∀ a2 out2, Calculate o m a2 out2 (Calculate o m a out st).1 =
      ((Calculate o m a out st).1, out2, .error notRunningMsg)) ∧
    (∀ b : BridgeState, b.sim = st → b.mapping = m → b.mapping_loaded = true →
      (HandleCalculate o b a out).status = Status.Success) := by
  obtain ⟨log, hlog⟩ := hlog
  have hpiok := (processInputs_setLog o a m.inputs st.input_indices st log hlog).1
  have core := calculate_termination_core o m a out st hrun hpiok hstep hend
  refine ⟨core.1, core.2.1, core.2.2, fun a2 out2 => ?_, fun b hb hm hl => ?_⟩
  · exact calculate_not_running o m a2 out2 _ core.2.1.1
  · have hok : (Calculate o b.mapping a out b.sim).2.2 = .ok () := by
      rw [hb, hm]; exact core.1
    simp [HandleCalculate, hl, hok]

/-- An engine that reports normal termination on its first step call. -/
def endOracle : EngineOracle := { demoOracle with stepCode := fun _ => 1 }

theorem C9_witness :
    (Calculate endOracle demoMapping (arr2 0 5) zeroArr demoSt1).2.2 = .ok () ∧
    Closed (Calculate endOracle demoMapping (arr2 0 5) zeroArr demoSt1).1 ∧
    (∀ r ∈ demoMapping.outputs,
      (Calculate endOracle demoMapping (arr2 0 5) zeroArr demoSt1).2.1
        r.interface_index = 0) ∧
    (∀ a2 out2, Calculate endOracle demoMapping a2 out2
        (Calculate endOracle demoMapping (arr2 0 5) zeroArr demoSt1).1 =
      ((Calculate endOracle demoMapping (arr2 0 5) zeroArr demoSt1).1, out2,
       .error notRunningMsg)) ∧
    (∀ b : BridgeState, b.sim = demoSt1 → b.mapping = demoMapping →
      b.mapping_loaded = true →
      (HandleCalculate endOracle b (arr2 0 5) zeroArr).status = Status.Success) :=
  C9_normal_termination endOracle demoMapping (arr2 0 5) zeroArr demoSt1
    ⟨rfl, rfl, rfl⟩
    ⟨[(swmm_GAGE_RAINFALL, 0, 5)],
      by simp [currentInputLog, demoMapping, demoInputs, demoSt1, inputProperty,
        arr2, swmm_GAGE_RAINFALL]⟩
    (by norm_num [ShouldStepSimulation, demoSt1])
    (by norm_num [endOracle, demoSt1])

/-! ### Claim C10 -/

/-- C10: with a valid input file, an engine that opens, and a mapping that
resolves, Initialize fails with the out-of-range diagnostic and closes the
engine whenever the (default 0, test-hook-settable) subcatchment index lies
outside `[0, count)`; a model with zero subcatchments therefore always fails
this check, even when the mapping references no subcatchment. -/
theorem C10_subcatchment_range (o : EngineOracle) (m : Mapping)
    (st : SimState) (i : Int)
    (hrun : st.is_running = false)
    (hfile : o.fileStatus = FileStatus.present)
    (hopen : o.openCode = 0)
    (hvi : (validateInputs o m.inputs).2 = .ok ())
    (hvo : (validateOutputs o m.outputs).2 = .ok ())
    (hout : st.subcatchment_index < 0 ∨
      o.getCount swmm_SUBCATCH ≤ st.subcatchment_index) :
    (Initialize o m st).2 =
      .error (subcatchRangeMsg st.subcatchment_index (o.getCount swmm_SUBCATCH)) ∧
    (Initialize o m st).1.engine.opened = false ∧
    (Initialize o m st).1.is_running = false ∧
    ThreePart (subcatchRangeMsg st.subcatchment_index (o.getCount swmm_SUBCATCH)) ∧
    SimState.init.subcatchment_index = 0 ∧
    (SetSubcatchmentIndex st i).subcatchment_index = i := by
  refine ⟨?_, ?_, ?_, subcatchRangeMsg_parts _ _, rfl, rfl⟩ <;>
    simp [Initialize, initializeCore, hrun, hfile, fileValidatorOk, input_file,
      engineOpen, hopen, ValidateMapping, hvi, hvo, engineClose, hout]

/-- An engine whose loaded model contains zero subcatchments. -/
def zeroSubOracle : EngineOracle := { demoOracle with getCount := fun _ => 0 }

theorem C10_witness :
    (Initialize zeroSubOracle demoMapping SimState.init).2 =
      .error (subcatchRangeMsg SimState.init.subcatchment_index
        (zeroSubOracle.getCount swmm_SUBCATCH)) ∧
    (Initialize zeroSubOracle demoMapping SimState.init).1.engine.opened = false ∧
    (Initialize zeroSubOracle demoMapping SimState.init).1.is_running = false ∧
    ThreePart (subcatchRangeMsg SimState.init.subcatchment_index
      (zeroSubOracle.getCount swmm_SUBCATCH)) ∧
    SimState.init.subcatchment_index = 0 ∧
    (SetSubcatchmentIndex SimState.init 3).subcatchment_index = 3 :=
  C10_subcatchment_range zeroSubOracle demoMapping SimState.init 3 rfl rfl rfl
    (by simp [validateInputs, demoMapping, demoInputs, inputObjType,
      zeroSubOracle, demoOracle])
    rfl
    (Or.inr (by norm_num [zeroSubOracle, demoOracle, SimState.init]))

end GSswmm
